import Mathlib

/-!
Verification of the XInput controller state-diffing engine
(`src/cc/xboxcontroller/xboxcontroller.py`).

The Python module polls a driver for controller snapshots, diffs the new
snapshot against the stored one, mutates cached axis/button state and
dispatches change events.  The shallow embedding below mirrors that code:

* `XINPUT_GAMEPAD` / `XINPUT_STATE` are the raw ctypes structs; machine
  integers become `Nat`/`Int` (the driver guarantees `buttons < 2^16`,
  `packet_number < 2^32`, triggers in `[0,255]`, sticks in `[-2^15, 2^15)`).
* Python floats are modelled as rationals (`ℚ`); the diffing logic only
  compares, scales and clamps values, which the rational model mirrors
  exactly.
* The mutable `XboxController` object becomes a state record threaded
  through the operations.  `pyglet`'s synchronous `dispatch_event` is
  modelled by a trace: each dispatched event is recorded together with the
  controller state visible to listeners at the instant of dispatch.
* The driver (`XInputGetState`) is modelled as an explicit
  `Option XINPUT_STATE` argument to `update` (`none` = device not
  connected).  A Python exception is modelled as an `UpdateError`; the
  session returned alongside it reflects the mutations performed before
  the raise.
-/

/-- `gen_bit_values(number)`: zero or one for each bit of a numeric value up
to the most significant 1 bit, beginning with the least significant bit. -/
def gen_bit_values (number : Nat) : List Nat :=
  if h : number = 0 then []
  else (number % 2) :: gen_bit_values (number / 2)
decreasing_by exact Nat.div_lt_self (Nat.pos_of_ne_zero h) one_lt_two

/-- `get_bit_values(number, size)`: bit values as a list for a given number,
most-significant first, 0-padded on the high end to exactly `size` entries. -/
def get_bit_values (number : Nat) (size : Nat) : List Nat :=
  let res := (gen_bit_values number).reverse
  List.replicate (size - res.length) 0 ++ res

/-- The six analog axes of the `Axis` class. -/
inductive Axis
  | LX | LY | RX | RY | LTrigger | RTrigger
deriving DecidableEq, Repr

/-- ctypes size of the raw field backing an axis: triggers are `c_ubyte`
(1 byte), stick axes are `c_short` (2 bytes). -/
def Axis.data_size : Axis → Nat
  | .LTrigger => 1
  | .RTrigger => 1
  | _ => 2

/-- Button ordinals from the `Button` class. -/
def Button.Y : Nat := 1
def Button.X : Nat := 2
def Button.B : Nat := 3
def Button.A : Nat := 4
def Button.L : Nat := 5
def Button.BUMPER_R : Nat := 7
def Button.BUMPER_L : Nat := 8
def Button.STICK_R : Nat := 9
def Button.STICK_L : Nat := 10
def Button.BACK : Nat := 11
def Button.START : Nat := 12
def Button.DPAD_R : Nat := 13
def Button.DPAD_L : Nat := 14
def Button.DPAD_D : Nat := 15
def Button.DPAD_U : Nat := 16

/-- Raw gamepad snapshot (`XINPUT_GAMEPAD`): 16-bit button mask, two
unsigned trigger bytes, four signed stick shorts. -/
structure XINPUT_GAMEPAD where
  buttons : Nat
  LTrigger : Nat
  RTrigger : Nat
  LX : Int
  LY : Int
  RX : Int
  RY : Int
deriving DecidableEq, Repr

/-- Raw controller snapshot (`XINPUT_STATE`): packet number plus gamepad. -/
structure XINPUT_STATE where
  packet_number : Nat
  gamepad : XINPUT_GAMEPAD
deriving DecidableEq, Repr

/-- Raw sample of one axis, as `getattr(gamepad, axis)` reads it. -/
def XINPUT_GAMEPAD.axisVal (g : XINPUT_GAMEPAD) : Axis → Int
  | .LX => g.LX
  | .LY => g.LY
  | .RX => g.RX
  | .RY => g.RY
  | .LTrigger => (g.LTrigger : Int)
  | .RTrigger => (g.RTrigger : Int)

/-- `translate_using_data_size`: `float(value) / (2**(8*data_size) - 1)`. -/
def translate_using_data_size (value : Int) (data_size : Nat) : ℚ :=
  (value : ℚ) / (2 ^ (8 * data_size) - 1)

/-- `translate_identity`: returns the value unchanged. -/
def translate_identity (value : Int) (_data_size : Nat) : ℚ :=
  (value : ℚ)

/-- The normalization method selected by the `normalize_axes` constructor
argument (`true` picks `translate_using_data_size`, the default). -/
def translateM (normalize_axes : Bool) (value : Int) (data_size : Nat) : ℚ :=
  if normalize_axes then translate_using_data_size value data_size
  else translate_identity value data_size

/-- The cached `self.axes` dictionary: one normalized value per axis. -/
structure AxesMap where
  LX : ℚ
  LY : ℚ
  RX : ℚ
  RY : ℚ
  LTrigger : ℚ
  RTrigger : ℚ
deriving DecidableEq, Repr

/-- Read one entry of the axes dictionary. -/
def AxesMap.get (m : AxesMap) : Axis → ℚ
  | .LX => m.LX
  | .LY => m.LY
  | .RX => m.RX
  | .RY => m.RY
  | .LTrigger => m.LTrigger
  | .RTrigger => m.RTrigger

/-- Write one entry of the axes dictionary. -/
def AxesMap.set (m : AxesMap) : Axis → ℚ → AxesMap
  | .LX, v => { m with LX := v }
  | .LY, v => { m with LY := v }
  | .RX, v => { m with RX := v }
  | .RY, v => { m with RY := v }
  | .LTrigger, v => { m with LTrigger := v }
  | .RTrigger, v => { m with RTrigger := v }

/-- Events dispatched through `dispatch_event`, one constructor per
registered event type. -/
inductive Event
  | missed_packet (number : Int)
  | state_changed (state : XINPUT_STATE)
  | axis (axis : Axis) (value : ℚ)
  | button (number : Nat) (pressed : Nat)
deriving DecidableEq, Repr

/-- The mutable state of one `XboxController` instance. -/
structure XboxController where
  device_number : Nat
  last_state : Option XINPUT_STATE
  received_packets : Int
  missed_packets : Int
  deadzone : ℚ
  dampen : ℚ
  normalize_axes : Bool
  axes : AxesMap
  buttons : List Nat
  rumble : List ℚ
deriving DecidableEq, Repr

/-- Default deadzone (`DEADZONE = 0.08`). -/
def DEADZONE : ℚ := 8 / 100

/-- Default dampen threshold (`DAMPEN = 0.000000005`). -/
def DAMPEN : ℚ := 5 / 1000000000

/-- `XboxController.__init__`: `initial` is what `get_state` returned at
construction time (`none` when the device is not connected). -/
def XboxController.init (device_number : Nat) (deadzone dampen : ℚ)
    (normalize_axes : Bool) (initial : Option XINPUT_STATE) : XboxController :=
  { device_number := device_number
    last_state := initial
    received_packets := 0
    missed_packets := 0
    deadzone := deadzone
    dampen := dampen
    normalize_axes := normalize_axes
    axes := ⟨0, 0, 0, 0, 0, 0⟩
    buttons := List.replicate 17 0
    rumble := [0, 0] }

/-- `self.translate`, the bound normalization method. -/
def XboxController.translate (s : XboxController) (value : Int)
    (data_size : Nat) : ℚ :=
  translateM s.normalize_axes value data_size

/-- A dispatch trace: each dispatched event paired with the controller
state a listener callback observes at the instant of dispatch. -/
abbrev Trace := List (Event × XboxController)

/-- One iteration of the `dispatch_axis_events` loop body for one axis. -/
def XboxController.process_axis (s : XboxController) (last cur : XINPUT_STATE)
    (axis : Axis) : XboxController × Trace :=
  let data_size := axis.data_size
  let last_val := s.translate (last.gamepad.axisVal axis) data_size
  let val := s.translate (cur.gamepad.axisVal axis) data_size
  if |last_val - val| > s.dampen then
    let last_val := if |last_val| < s.deadzone then 0 else last_val
    let val := if |val| < s.deadzone then 0 else val
    if last_val ≠ val then
      let val := if axis ∉ [Axis.LTrigger, Axis.RTrigger] then val * 2 else val
      let val := max (-1) (min val 1)
      let s' := { s with axes := s.axes.set axis val }
      (s', [(Event.axis axis val, s')])
    else (s, [])
  else (s, [])

/-- The axis iteration order of `dispatch_axis_events`:
`dict(XINPUT_GAMEPAD._fields_)` minus `"buttons"` preserves the ctypes
field declaration order, so triggers come before sticks. -/
def axis_scan_order : List Axis :=
  [Axis.LTrigger, Axis.RTrigger, Axis.LX, Axis.LY, Axis.RX, Axis.RY]

/-- The `for axis, data_type in axis_fields.items()` loop of
`dispatch_axis_events`, over an explicit axis list. -/
def XboxController.dispatch_axis_loop (s : XboxController)
    (last cur : XINPUT_STATE) : List Axis → XboxController × Trace
  | [] => (s, [])
  | a :: rest =>
    let p := s.process_axis last cur a
    let q := p.1.dispatch_axis_loop last cur rest
    (q.1, p.2 ++ q.2)

/-- `dispatch_axis_events(state)`. -/
def XboxController.dispatch_axis_events (s : XboxController)
    (last cur : XINPUT_STATE) : XboxController × Trace :=
  s.dispatch_axis_loop last cur axis_scan_order

/-- `changed_buttons` as computed inside `dispatch_button_events`:
`zip(changed_bits, button_numbers, buttons_state)` filtered on a set
changed bit.  Triples are `(changed_bit, (number, pressed))`. -/
def changed_buttons (last cur : XINPUT_STATE) : List (Nat × Nat × Nat) :=
  let changed := cur.gamepad.buttons ^^^ last.gamepad.buttons
  let changedBits := get_bit_values changed 16
  let buttons_state := get_bit_values cur.gamepad.buttons 16
  let button_numbers := (List.range 16).map (fun i => i + 1)
  (changedBits.zip (button_numbers.zip buttons_state)).filter
    (fun t => t.1 != 0)

/-- `dispatch_button_event(changed, number, pressed)`: store and dispatch. -/
def XboxController.dispatch_button_event (s : XboxController)
    (number pressed : Nat) : XboxController × Trace :=
  let s' := { s with buttons := s.buttons.set number pressed }
  (s', [(Event.button number pressed, s')])

/-- The `starmap(self.dispatch_button_event, changed_buttons)` loop. -/
def XboxController.dispatch_button_loop (s : XboxController) :
    List (Nat × Nat × Nat) → XboxController × Trace
  | [] => (s, [])
  | t :: rest =>
    let p := s.dispatch_button_event t.2.1 t.2.2
    let q := p.1.dispatch_button_loop rest
    (q.1, p.2 ++ q.2)

/-- `dispatch_button_events(state)`. -/
def XboxController.dispatch_button_events (s : XboxController)
    (last cur : XINPUT_STATE) : XboxController × Trace :=
  s.dispatch_button_loop (changed_buttons last cur)

/-- `update_packet_count(state)`: bump `received_packets`, dispatch
`on_missed_packet` when the gap is nonzero, then add the (possibly
negative) gap to `missed_packets`.  `last` is `self._last_state`. -/
def XboxController.update_packet_count (s : XboxController)
    (last cur : XINPUT_STATE) : XboxController × Trace :=
  let s1 := { s with received_packets := s.received_packets + 1 }
  let missed : Int :=
    (cur.packet_number : Int) - (last.packet_number : Int) - 1
  let tr : Trace := if missed ≠ 0 then [(Event.missed_packet missed, s1)] else []
  let s2 := { s1 with missed_packets := s1.missed_packets + missed }
  (s2, tr)

/-- `handle_changed_state(state)`: `on_state_changed`, then axis events,
then button events. -/
def XboxController.handle_changed_state (s : XboxController)
    (last cur : XINPUT_STATE) : XboxController × Trace :=
  let tr0 : Trace := [(Event.state_changed cur, s)]
  let p := s.dispatch_axis_events last cur
  let q := p.1.dispatch_button_events last cur
  (q.1, tr0 ++ p.2 ++ q.2)

/-- Exceptions `update` can raise: the explicit
`RuntimeError("Joystick %d is not connected")`, and the `AttributeError`
hit when `self._last_state` is `None` and the code reads
`self._last_state.packet_number`. -/
inductive UpdateError
  | not_connected (device_number : Nat)
  | attr_error
deriving DecidableEq, Repr

/-- `update()`: `backend` is the `Option` result of `self.get_state()`.
Returns the controller state after the call (reflecting mutations made
before any raise), the dispatch trace, and the raised error if any. -/
def XboxController.update (s : XboxController)
    (backend : Option XINPUT_STATE) :
    XboxController × Trace × Option UpdateError :=
  match backend with
  | none => (s, [], some (UpdateError.not_connected s.device_number))
  | some state =>
    match s.last_state with
    | none => (s, [], some UpdateError.attr_error)
    | some last =>
      if state.packet_number ≠ last.packet_number then
        let p := s.update_packet_count last state
        let q := p.1.handle_changed_state last state
        ({ q.1 with last_state := some state }, p.2 ++ q.2, none)
      else
        ({ s with last_state := some state }, [], none)

/-- The events produced by one `update` call, in dispatch order. -/
def XboxController.updateTrace (s : XboxController)
    (backend : Option XINPUT_STATE) : Trace :=
  (s.update backend).2.1

/-- The events of one `update` call without the observed states. -/
def XboxController.updateEvents (s : XboxController)
    (backend : Option XINPUT_STATE) : List Event :=
  (s.updateTrace backend).map Prod.fst

/-- A sequence of `update` calls against successive backend snapshots. -/
def XboxController.run (s : XboxController) :
    List XINPUT_STATE → XboxController
  | [] => s
  | st :: rest => ((s.update (some st)).1).run rest

/-- `get_button(button)`: read of the cached button array (`0`/`1`). -/
def XboxController.get_button (s : XboxController) (button : Nat) : Nat :=
  s.buttons.getD button 0

/-- `get_axis(axis)`: read of the cached axes dictionary. -/
def XboxController.get_axis (s : XboxController) (axis : Axis) : ℚ :=
  s.axes.get axis

/-- `is_connected()`: `self._last_state is not None`. -/
def XboxController.is_connected (s : XboxController) : Bool :=
  s.last_state.isSome

/-- `get_dpad()`: the 8-direction lookup over the four D-pad buttons. -/
def XboxController.get_dpad (s : XboxController) : Int :=
  if !(s.get_button Button.DPAD_L != 0) && !(s.get_button Button.DPAD_R != 0)
      && (s.get_button Button.DPAD_U != 0) && !(s.get_button Button.DPAD_D != 0) then 0
  else if !(s.get_button Button.DPAD_L != 0) && (s.get_button Button.DPAD_R != 0)
      && (s.get_button Button.DPAD_U != 0) && !(s.get_button Button.DPAD_D != 0) then 45
  else if !(s.get_button Button.DPAD_L != 0) && (s.get_button Button.DPAD_R != 0)
      && !(s.get_button Button.DPAD_U != 0) && !(s.get_button Button.DPAD_D != 0) then 90
  else if !(s.get_button Button.DPAD_L != 0) && (s.get_button Button.DPAD_R != 0)
      && !(s.get_button Button.DPAD_U != 0) && (s.get_button Button.DPAD_D != 0) then 135
  else if !(s.get_button Button.DPAD_L != 0) && !(s.get_button Button.DPAD_R != 0)
      && !(s.get_button Button.DPAD_U != 0) && (s.get_button Button.DPAD_D != 0) then 180
  else if (s.get_button Button.DPAD_L != 0) && !(s.get_button Button.DPAD_R != 0)
      && !(s.get_button Button.DPAD_U != 0) && (s.get_button Button.DPAD_D != 0) then 225
  else if (s.get_button Button.DPAD_L != 0) && !(s.get_button Button.DPAD_R != 0)
      && !(s.get_button Button.DPAD_U != 0) && !(s.get_button Button.DPAD_D != 0) then 270
  else if (s.get_button Button.DPAD_L != 0) && !(s.get_button Button.DPAD_R != 0)
      && (s.get_button Button.DPAD_U != 0) && !(s.get_button Button.DPAD_D != 0) then 315
  else -1

/-! ## Characterization of the per-axis step -/

/-- Deadzone clamp applied inside the axis loop: a magnitude strictly below
the deadzone is replaced by exactly 0. -/
def dzClamp (deadzone x : ℚ) : ℚ :=
  if |x| < deadzone then 0 else x

/-- The condition under which the axis loop stores and dispatches a value
for one axis: the dampen check passes and the deadzone-clamped endpoints
differ. -/
abbrev axisFires (nrm : Bool) (deadzone dampen : ℚ) (last cur : XINPUT_STATE)
    (a : Axis) : Prop :=
  dampen < |translateM nrm (last.gamepad.axisVal a) a.data_size
            - translateM nrm (cur.gamepad.axisVal a) a.data_size|
  ∧ dzClamp deadzone (translateM nrm (last.gamepad.axisVal a) a.data_size)
      ≠ dzClamp deadzone (translateM nrm (cur.gamepad.axisVal a) a.data_size)

/-- The value stored and dispatched when an axis fires: the
deadzone-clamped current value, doubled for non-trigger axes, clamped to
`[-1, 1]`. -/
def finalAxisVal (nrm : Bool) (deadzone : ℚ) (cur : XINPUT_STATE)
    (a : Axis) : ℚ :=
  let vn := dzClamp deadzone (translateM nrm (cur.gamepad.axisVal a) a.data_size)
  max (-1) (min (if a ∉ [Axis.LTrigger, Axis.RTrigger] then vn * 2 else vn) 1)

lemma process_axis_eq (s : XboxController) (last cur : XINPUT_STATE) (a : Axis) :
    s.process_axis last cur a =
      if axisFires s.normalize_axes s.deadzone s.dampen last cur a then
        ({ s with axes := s.axes.set a (finalAxisVal s.normalize_axes s.deadzone cur a) },
         [(Event.axis a (finalAxisVal s.normalize_axes s.deadzone cur a),
           { s with axes := s.axes.set a (finalAxisVal s.normalize_axes s.deadzone cur a) })])
      else (s, []) := by
  simp only [XboxController.process_axis, XboxController.translate, finalAxisVal,
    dzClamp, axisFires]
  split_ifs <;> first | rfl | tauto

lemma process_axis_fst (s : XboxController) (last cur : XINPUT_STATE) (a : Axis) :
    ∃ m, (s.process_axis last cur a).1 = { s with axes := m } := by
  rw [process_axis_eq]
  split
  · exact ⟨_, rfl⟩
  · exact ⟨s.axes, rfl⟩

/-- The event list one axis contributes, as a function of the diffing
configuration only. -/
def axisEvent (nrm : Bool) (deadzone dampen : ℚ) (last cur : XINPUT_STATE)
    (a : Axis) : List Event :=
  if axisFires nrm deadzone dampen last cur a then
    [Event.axis a (finalAxisVal nrm deadzone cur a)]
  else []

lemma process_axis_events (s : XboxController) (last cur : XINPUT_STATE) (a : Axis) :
    (s.process_axis last cur a).2.map Prod.fst
      = axisEvent s.normalize_axes s.deadzone s.dampen last cur a := by
  rw [process_axis_eq, axisEvent]
  split <;> rfl

lemma process_axis_no_fire {s : XboxController} {last cur : XINPUT_STATE} {a : Axis}
    (h : ¬ axisFires s.normalize_axes s.deadzone s.dampen last cur a) :
    s.process_axis last cur a = (s, []) := by
  rw [process_axis_eq, if_neg h]

lemma mem_axisEvent {nrm : Bool} {dz dp : ℚ} {last cur : XINPUT_STATE} {a : Axis}
    {e : Event} (h : e ∈ axisEvent nrm dz dp last cur a) :
    e = Event.axis a (finalAxisVal nrm dz cur a) := by
  unfold axisEvent at h
  split at h <;> simp_all

lemma AxesMap.get_set_same (m : AxesMap) (a : Axis) (v : ℚ) :
    (m.set a v).get a = v := by
  cases a <;> rfl

lemma AxesMap.get_set_ne (m : AxesMap) {a b : Axis} (v : ℚ) (h : b ≠ a) :
    (m.set a v).get b = m.get b := by
  cases a <;> cases b <;> first | rfl | exact absurd rfl h

/-! ## The axis loop -/

lemma dispatch_axis_loop_fst (last cur : XINPUT_STATE) :
    ∀ (L : List Axis) (s : XboxController),
      ∃ m, (s.dispatch_axis_loop last cur L).1 = { s with axes := m }
  | [], s => ⟨s.axes, rfl⟩
  | a :: rest, s => by
    obtain ⟨m1, h1⟩ := process_axis_fst s last cur a
    obtain ⟨m2, h2⟩ :=
      dispatch_axis_loop_fst last cur rest (s.process_axis last cur a).1
    refine ⟨m2, ?_⟩
    simp only [XboxController.dispatch_axis_loop]
    rw [h2, h1]

lemma dispatch_axis_loop_events (last cur : XINPUT_STATE) :
    ∀ (L : List Axis) (s : XboxController),
      (s.dispatch_axis_loop last cur L).2.map Prod.fst
        = (L.map (axisEvent s.normalize_axes s.deadzone s.dampen last cur)).flatten
  | [], _ => rfl
  | a :: rest, s => by
    obtain ⟨m1, h1⟩ := process_axis_fst s last cur a
    have ih := dispatch_axis_loop_events last cur rest (s.process_axis last cur a).1
    simp only [XboxController.dispatch_axis_loop, List.map_cons, List.flatten_cons,
      List.map_append]
    rw [ih, process_axis_events, h1]

lemma dispatch_axis_loop_pairs (last cur : XINPUT_STATE) :
    ∀ (L : List Axis) (s : XboxController),
      ∀ p ∈ (s.dispatch_axis_loop last cur L).2,
        ∃ a v, p.1 = Event.axis a v ∧ p.2.axes.get a = v
  | [], _, p, hp => by simp [XboxController.dispatch_axis_loop] at hp
  | a :: rest, s, p, hp => by
    simp only [XboxController.dispatch_axis_loop, List.mem_append] at hp
    rcases hp with hp | hp
    · rw [process_axis_eq] at hp
      split at hp
      · simp only [List.mem_singleton] at hp
        subst hp
        exact ⟨a, _, rfl, AxesMap.get_set_same _ _ _⟩
      · simp at hp
    · exact dispatch_axis_loop_pairs last cur rest (s.process_axis last cur a).1 p hp

lemma dispatch_axis_loop_get {last cur : XINPUT_STATE} {a : Axis} :
    ∀ (L : List Axis) (s : XboxController),
      ¬ axisFires s.normalize_axes s.deadzone s.dampen last cur a →
      (s.dispatch_axis_loop last cur L).1.axes.get a = s.axes.get a
  | [], _, _ => rfl
  | b :: rest, s, h => by
    have key : (s.process_axis last cur b).1.axes.get a = s.axes.get a := by
      by_cases hba : b = a
      · subst hba
        rw [process_axis_no_fire h]
      · rw [process_axis_eq]
        split
        · exact AxesMap.get_set_ne _ _ (Ne.symm hba)
        · rfl
    obtain ⟨m1, h1⟩ := process_axis_fst s last cur b
    have h' : ¬ axisFires (s.process_axis last cur b).1.normalize_axes
        (s.process_axis last cur b).1.deadzone (s.process_axis last cur b).1.dampen
        last cur a := by
      rw [h1]; exact h
    have ih := dispatch_axis_loop_get rest (s.process_axis last cur b).1 h'
    simp only [XboxController.dispatch_axis_loop]
    rw [ih, key]

/-! ## The button loop -/

lemma getD_set_self (l : List Nat) (n v : Nat) (h : n < l.length) :
    (l.set n v).getD n 0 = v := by
  rw [List.getD_eq_getElem?_getD, List.getElem?_set_self', List.getElem?_eq_getElem h]
  rfl

lemma getD_set_ne (l : List Nat) {m n : Nat} (v : Nat) (h : m ≠ n) :
    (l.set m v).getD n 0 = l.getD n 0 := by
  rw [List.getD_eq_getElem?_getD, List.getElem?_set_ne h, ← List.getD_eq_getElem?_getD]

lemma dispatch_button_loop_fst :
    ∀ (ts : List (Nat × Nat × Nat)) (s : XboxController),
      ∃ bl, (s.dispatch_button_loop ts).1 = { s with buttons := bl }
  | [], s => ⟨s.buttons, rfl⟩
  | t :: rest, s => by
    obtain ⟨bl, h⟩ :=
      dispatch_button_loop_fst rest { s with buttons := s.buttons.set t.2.1 t.2.2 }
    exact ⟨bl, by simp only [XboxController.dispatch_button_loop,
      XboxController.dispatch_button_event]; rw [h]⟩

lemma dispatch_button_loop_events :
    ∀ (ts : List (Nat × Nat × Nat)) (s : XboxController),
      (s.dispatch_button_loop ts).2.map Prod.fst
        = ts.map (fun t => Event.button t.2.1 t.2.2)
  | [], _ => rfl
  | t :: rest, s => by
    simp only [XboxController.dispatch_button_loop,
      XboxController.dispatch_button_event, List.map_append, List.map_cons]
    rw [dispatch_button_loop_events rest]
    rfl

lemma dispatch_button_loop_pairs :
    ∀ (ts : List (Nat × Nat × Nat)) (s : XboxController),
      (∀ t ∈ ts, t.2.1 < s.buttons.length) →
      ∀ p ∈ (s.dispatch_button_loop ts).2,
        ∃ n pr, p.1 = Event.button n pr ∧ p.2.buttons.getD n 0 = pr
  | [], _, _, p, hp => by simp [XboxController.dispatch_button_loop] at hp
  | t :: rest, s, hlen, p, hp => by
    simp only [XboxController.dispatch_button_loop,
      XboxController.dispatch_button_event, List.mem_append,
      List.mem_singleton] at hp
    rcases hp with hp | hp
    · subst hp
      refine ⟨t.2.1, t.2.2, rfl, ?_⟩
      exact getD_set_self _ _ _ (hlen t (by simp))
    · refine dispatch_button_loop_pairs rest _ ?_ p hp
      intro u hu
      simpa using hlen u (by simp [hu])

lemma dispatch_button_loop_getD (n : Nat) :
    ∀ (ts : List (Nat × Nat × Nat)) (s : XboxController),
      (∀ t ∈ ts, t.2.1 ≠ n) →
      (s.dispatch_button_loop ts).1.buttons.getD n 0 = s.buttons.getD n 0
  | [], _, _ => rfl
  | t :: rest, s, h => by
    simp only [XboxController.dispatch_button_loop,
      XboxController.dispatch_button_event]
    rw [dispatch_button_loop_getD n rest _ (fun u hu => h u (by simp [hu]))]
    exact getD_set_ne _ _ (h t (by simp))

/-! ## Composition: `handle_changed_state` and `update` -/

lemma handle_changed_state_fst (s : XboxController) (last cur : XINPUT_STATE) :
    ∃ am bl, (s.handle_changed_state last cur).1 = { s with axes := am, buttons := bl } := by
  obtain ⟨am, h1⟩ := dispatch_axis_loop_fst last cur axis_scan_order s
  obtain ⟨bl, h2⟩ := dispatch_button_loop_fst (changed_buttons last cur)
    (s.dispatch_axis_events last cur).1
  have h1' : (s.dispatch_axis_events last cur).1 = { s with axes := am } := h1
  refine ⟨am, bl, ?_⟩
  simp only [XboxController.handle_changed_state,
    XboxController.dispatch_button_events]
  rw [h2, h1']

/-- The packet-number gap `state.packet_number - last.packet_number - 1`
computed by `update_packet_count` (a Python `int`, possibly negative). -/
def missedGap (last cur : XINPUT_STATE) : Int :=
  (cur.packet_number : Int) - (last.packet_number : Int) - 1

lemma handle_changed_state_events (s : XboxController) (last cur : XINPUT_STATE) :
    (s.handle_changed_state last cur).2.map Prod.fst =
      Event.state_changed cur ::
        ((axis_scan_order.map (axisEvent s.normalize_axes s.deadzone s.dampen last cur)).flatten
          ++ (changed_buttons last cur).map (fun t => Event.button t.2.1 t.2.2)) := by
  have ha : (s.dispatch_axis_events last cur).2.map Prod.fst
      = (axis_scan_order.map (axisEvent s.normalize_axes s.deadzone s.dampen last cur)).flatten :=
    dispatch_axis_loop_events last cur axis_scan_order s
  simp only [XboxController.handle_changed_state,
    XboxController.dispatch_button_events, List.map_cons, List.map_append]
  rw [dispatch_button_loop_events, ha]
  rfl

lemma update_eq_changed (s : XboxController) (last cur : XINPUT_STATE)
    (hl : s.last_state = some last) (hpn : cur.packet_number ≠ last.packet_number) :
    s.update (some cur) =
      (let s1 : XboxController :=
        { s with received_packets := s.received_packets + 1,
                 missed_packets := s.missed_packets + missedGap last cur }
       let q := s1.handle_changed_state last cur
       ({ q.1 with last_state := some cur },
        (if missedGap last cur ≠ 0 then
          [(Event.missed_packet (missedGap last cur),
            { s with received_packets := s.received_packets + 1 })]
         else []) ++ q.2,
        none)) := by
  simp only [XboxController.update, hl, XboxController.update_packet_count,
    missedGap, if_pos hpn]

lemma updateEvents_changed (s : XboxController) (last cur : XINPUT_STATE)
    (hl : s.last_state = some last) (hpn : cur.packet_number ≠ last.packet_number) :
    s.updateEvents (some cur) =
      (if missedGap last cur ≠ 0 then [Event.missed_packet (missedGap last cur)] else [])
      ++ Event.state_changed cur ::
        ((axis_scan_order.map (axisEvent s.normalize_axes s.deadzone s.dampen last cur)).flatten
          ++ (changed_buttons last cur).map (fun t => Event.button t.2.1 t.2.2)) := by
  simp only [XboxController.updateEvents, XboxController.updateTrace,
    update_eq_changed s last cur hl hpn, List.map_append]
  rw [handle_changed_state_events]
  congr 1
  · split <;> rfl

lemma update_pn_changed (s : XboxController) (last cur : XINPUT_STATE)
    (hl : s.last_state = some last) (hpn : cur.packet_number ≠ last.packet_number) :
    (s.update (some cur)).1.missed_packets = s.missed_packets + missedGap last cur
    ∧ (s.update (some cur)).1.received_packets = s.received_packets + 1
    ∧ (s.update (some cur)).1.last_state = some cur := by
  rw [update_eq_changed s last cur hl hpn]
  obtain ⟨am, bl, h⟩ := handle_changed_state_fst
    { s with received_packets := s.received_packets + 1,
             missed_packets := s.missed_packets + missedGap last cur } last cur
  simp [h]

lemma update_pn_same (s : XboxController) (last cur : XINPUT_STATE)
    (hl : s.last_state = some last) (hpn : cur.packet_number = last.packet_number) :
    s.update (some cur) = ({ s with last_state := some cur }, [], none) := by
  simp [XboxController.update, hl, hpn]

/-! ## Explicit form of the 16-bit decoders -/

lemma gen_bit_values_zero : gen_bit_values 0 = [] := by
  rw [gen_bit_values]
  simp

lemma gen_bit_values_pos (number : Nat) (h : number ≠ 0) :
    gen_bit_values number = (number % 2) :: gen_bit_values (number / 2) := by
  rw [gen_bit_values]
  simp [h]

lemma get_bit_values_zero_zero : get_bit_values 0 0 = [] := by
  rw [get_bit_values, gen_bit_values_zero]
  rfl

lemma get_bit_values_succ (number k : Nat) :
    get_bit_values number (k + 1) = get_bit_values (number / 2) k ++ [number % 2] := by
  by_cases h : number = 0
  · subst h
    simp [get_bit_values, gen_bit_values_zero, List.replicate_succ']
  · rw [get_bit_values, get_bit_values, gen_bit_values_pos number h]
    simp [Nat.succ_sub_succ, List.append_assoc]

lemma get_bit_values_16 (m : Nat) (hm : m < 2 ^ 16) :
    get_bit_values m 16 =
      [m / 2 ^ 15 % 2, m / 2 ^ 14 % 2, m / 2 ^ 13 % 2, m / 2 ^ 12 % 2, m / 2 ^ 11 % 2, m / 2 ^ 10 % 2, m / 2 ^ 9 % 2, m / 2 ^ 8 % 2, m / 2 ^ 7 % 2, m / 2 ^ 6 % 2, m / 2 ^ 5 % 2, m / 2 ^ 4 % 2, m / 2 ^ 3 % 2, m / 2 ^ 2 % 2, m / 2 ^ 1 % 2, m / 2 ^ 0 % 2] := by
  have e1 : get_bit_values m 16 = get_bit_values (m / 2) 15 ++ [m % 2] :=
    get_bit_values_succ _ 15
  have e2 : get_bit_values (m / 2) 15 = get_bit_values (m / 2 / 2) 14 ++ [m / 2 % 2] :=
    get_bit_values_succ _ 14
  have e3 : get_bit_values (m / 2 / 2) 14 = get_bit_values (m / 2 / 2 / 2) 13 ++ [m / 2 / 2 % 2] :=
    get_bit_values_succ _ 13
  have e4 : get_bit_values (m / 2 / 2 / 2) 13 = get_bit_values (m / 2 / 2 / 2 / 2) 12 ++ [m / 2 / 2 / 2 % 2] :=
    get_bit_values_succ _ 12
  have e5 : get_bit_values (m / 2 / 2 / 2 / 2) 12 = get_bit_values (m / 2 / 2 / 2 / 2 / 2) 11 ++ [m / 2 / 2 / 2 / 2 % 2] :=
    get_bit_values_succ _ 11
  have e6 : get_bit_values (m / 2 / 2 / 2 / 2 / 2) 11 = get_bit_values (m / 2 / 2 / 2 / 2 / 2 / 2) 10 ++ [m / 2 / 2 / 2 / 2 / 2 % 2] :=
    get_bit_values_succ _ 10
  have e7 : get_bit_values (m / 2 / 2 / 2 / 2 / 2 / 2) 10 = get_bit_values (m / 2 / 2 / 2 / 2 / 2 / 2 / 2) 9 ++ [m / 2 / 2 / 2 / 2 / 2 / 2 % 2] :=
    get_bit_values_succ _ 9
  have e8 : get_bit_values (m / 2 / 2 / 2 / 2 / 2 / 2 / 2) 9 = get_bit_values (m / 2 / 2 / 2 / 2 / 2 / 2 / 2 / 2) 8 ++ [m / 2 / 2 / 2 / 2 / 2 / 2 / 2 % 2] :=
    get_bit_values_succ _ 8
  have e9 : get_bit_values (m / 2 / 2 / 2 / 2 / 2 / 2 / 2 / 2) 8 = get_bit_values (m / 2 / 2 / 2 / 2 / 2 / 2 / 2 / 2 / 2) 7 ++ [m / 2 / 2 / 2 / 2 / 2 / 2 / 2 / 2 % 2] :=
    get_bit_values_succ _ 7
  have e10 : get_bit_values (m / 2 / 2 / 2 / 2 / 2 / 2 / 2 / 2 / 2) 7 = get_bit_values (m / 2 / 2 / 2 / 2 / 2 / 2 / 2 / 2 / 2 / 2) 6 ++ [m / 2 / 2 / 2 / 2 / 2 / 2 / 2 / 2 / 2 % 2] :=
    get_bit_values_succ _ 6
  have e11 : get_bit_values (m / 2 / 2 / 2 / 2 / 2 / 2 / 2 / 2 / 2 / 2) 6 = get_bit_values (m / 2 / 2 / 2 / 2 / 2 / 2 / 2 / 2 / 2 / 2 / 2) 5 ++ [m / 2 / 2 / 2 / 2 / 2 / 2 / 2 / 2 / 2 / 2 % 2] :=
    get_bit_values_succ _ 5
  have e12 : get_bit_values (m / 2 / 2 / 2 / 2 / 2 / 2 / 2 / 2 / 2 / 2 / 2) 5 = get_bit_values (m / 2 / 2 / 2 / 2 / 2 / 2 / 2 / 2 / 2 / 2 / 2 / 2) 4 ++ [m / 2 / 2 / 2 / 2 / 2 / 2 / 2 / 2 / 2 / 2 / 2 % 2] :=
    get_bit_values_succ _ 4
  have e13 : get_bit_values (m / 2 / 2 / 2 / 2 / 2 / 2 / 2 / 2 / 2 / 2 / 2 / 2) 4 = get_bit_values (m / 2 / 2 / 2 / 2 / 2 / 2 / 2 / 2 / 2 / 2 / 2 / 2 / 2) 3 ++ [m / 2 / 2 / 2 / 2 / 2 / 2 / 2 / 2 / 2 / 2 / 2 / 2 % 2] :=
    get_bit_values_succ _ 3
  have e14 : get_bit_values (m / 2 / 2 / 2 / 2 / 2 / 2 / 2 / 2 / 2 / 2 / 2 / 2 / 2) 3 = get_bit_values (m / 2 / 2 / 2 / 2 / 2 / 2 / 2 / 2 / 2 / 2 / 2 / 2 / 2 / 2) 2 ++ [m / 2 / 2 / 2 / 2 / 2 / 2 / 2 / 2 / 2 / 2 / 2 / 2 / 2 % 2] :=
    get_bit_values_succ _ 2
  have e15 : get_bit_values (m / 2 / 2 / 2 / 2 / 2 / 2 / 2 / 2 / 2 / 2 / 2 / 2 / 2 / 2) 2 = get_bit_values (m / 2 / 2 / 2 / 2 / 2 / 2 / 2 / 2 / 2 / 2 / 2 / 2 / 2 / 2 / 2) 1 ++ [m / 2 / 2 / 2 / 2 / 2 / 2 / 2 / 2 / 2 / 2 / 2 / 2 / 2 / 2 % 2] :=
    get_bit_values_succ _ 1
  have e16 : get_bit_values (m / 2 / 2 / 2 / 2 / 2 / 2 / 2 / 2 / 2 / 2 / 2 / 2 / 2 / 2 / 2) 1 = get_bit_values (m / 2 / 2 / 2 / 2 / 2 / 2 / 2 / 2 / 2 / 2 / 2 / 2 / 2 / 2 / 2 / 2) 0 ++ [m / 2 / 2 / 2 / 2 / 2 / 2 / 2 / 2 / 2 / 2 / 2 / 2 / 2 / 2 / 2 % 2] :=
    get_bit_values_succ _ 0
  rw [e1, e2, e3, e4, e5, e6, e7, e8, e9, e10, e11, e12, e13, e14, e15, e16]
  have hz : m / 2 / 2 / 2 / 2 / 2 / 2 / 2 / 2 / 2 / 2 / 2 / 2 / 2 / 2 / 2 / 2 = 0 := by
    simp only [Nat.div_div_eq_div_mul]
    norm_num
    exact Nat.div_eq_of_lt (by norm_num at hm ⊢; exact hm)
  rw [hz, get_bit_values_zero_zero]
  simp only [Nat.div_div_eq_div_mul, List.nil_append, List.append_assoc]
  norm_num [Nat.div_one]

lemma xor_bit_eq_zero {a b : Nat} (i : Nat) (h : a / 2 ^ i % 2 = b / 2 ^ i % 2) :
    (a ^^^ b) / 2 ^ i % 2 = 0 := by
  have hx := Nat.testBit_xor a b i
  rw [Nat.testBit_to_div_mod, Nat.testBit_to_div_mod, Nat.testBit_to_div_mod, h] at hx
  simp only [bne_self_eq_false] at hx
  have := Nat.mod_two_eq_zero_or_one ((a ^^^ b) / 2 ^ i)
  rcases this with h0 | h1
  · exact h0
  · rw [h1] at hx
    simp at hx

/-! ## Explicit form of `changed_buttons` and ordering facts -/

lemma range_16_map_add_one :
    (List.range 16).map (fun i => i + 1) =
      [1, 2, 3, 4, 5, 6, 7, 8, 9, 10, 11, 12, 13, 14, 15, 16] := by
  rfl

lemma changed_buttons_eq (last cur : XINPUT_STATE)
    (hb : last.gamepad.buttons < 2 ^ 16) (hc : cur.gamepad.buttons < 2 ^ 16) :
    changed_buttons last cur =
      ([((cur.gamepad.buttons ^^^ last.gamepad.buttons) / 2 ^ 15 % 2, 1, cur.gamepad.buttons / 2 ^ 15 % 2),
       ((cur.gamepad.buttons ^^^ last.gamepad.buttons) / 2 ^ 14 % 2, 2, cur.gamepad.buttons / 2 ^ 14 % 2),
       ((cur.gamepad.buttons ^^^ last.gamepad.buttons) / 2 ^ 13 % 2, 3, cur.gamepad.buttons / 2 ^ 13 % 2),
       ((cur.gamepad.buttons ^^^ last.gamepad.buttons) / 2 ^ 12 % 2, 4, cur.gamepad.buttons / 2 ^ 12 % 2),
       ((cur.gamepad.buttons ^^^ last.gamepad.buttons) / 2 ^ 11 % 2, 5, cur.gamepad.buttons / 2 ^ 11 % 2),
       ((cur.gamepad.buttons ^^^ last.gamepad.buttons) / 2 ^ 10 % 2, 6, cur.gamepad.buttons / 2 ^ 10 % 2),
       ((cur.gamepad.buttons ^^^ last.gamepad.buttons) / 2 ^ 9 % 2, 7, cur.gamepad.buttons / 2 ^ 9 % 2),
       ((cur.gamepad.buttons ^^^ last.gamepad.buttons) / 2 ^ 8 % 2, 8, cur.gamepad.buttons / 2 ^ 8 % 2),
       ((cur.gamepad.buttons ^^^ last.gamepad.buttons) / 2 ^ 7 % 2, 9, cur.gamepad.buttons / 2 ^ 7 % 2),
       ((cur.gamepad.buttons ^^^ last.gamepad.buttons) / 2 ^ 6 % 2, 10, cur.gamepad.buttons / 2 ^ 6 % 2),
       ((cur.gamepad.buttons ^^^ last.gamepad.buttons) / 2 ^ 5 % 2, 11, cur.gamepad.buttons / 2 ^ 5 % 2),
       ((cur.gamepad.buttons ^^^ last.gamepad.buttons) / 2 ^ 4 % 2, 12, cur.gamepad.buttons / 2 ^ 4 % 2),
       ((cur.gamepad.buttons ^^^ last.gamepad.buttons) / 2 ^ 3 % 2, 13, cur.gamepad.buttons / 2 ^ 3 % 2),
       ((cur.gamepad.buttons ^^^ last.gamepad.buttons) / 2 ^ 2 % 2, 14, cur.gamepad.buttons / 2 ^ 2 % 2),
       ((cur.gamepad.buttons ^^^ last.gamepad.buttons) / 2 ^ 1 % 2, 15, cur.gamepad.buttons / 2 ^ 1 % 2),
       ((cur.gamepad.buttons ^^^ last.gamepad.buttons) / 2 ^ 0 % 2, 16, cur.gamepad.buttons / 2 ^ 0 % 2)] :
        List (Nat × Nat × Nat)).filter (fun t => t.1 != 0) := by
  have hx : cur.gamepad.buttons ^^^ last.gamepad.buttons < 2 ^ 16 :=
    Nat.xor_lt_two_pow hc hb
  simp only [changed_buttons]
  rw [get_bit_values_16 _ hx, get_bit_values_16 _ hc, range_16_map_add_one]
  rfl

lemma mem_changed_buttons_ne {last cur : XINPUT_STATE} {n : Nat}
    (hb : last.gamepad.buttons < 2 ^ 16) (hc : cur.gamepad.buttons < 2 ^ 16)
    (hbit : cur.gamepad.buttons / 2 ^ (16 - n) % 2
      = last.gamepad.buttons / 2 ^ (16 - n) % 2) :
    ∀ t ∈ changed_buttons last cur, t.2.1 ≠ n := by
  intro t ht
  rw [changed_buttons_eq last cur hb hc] at ht
  obtain ⟨hmem, hne⟩ := List.mem_filter.mp ht
  simp only [bne_iff_ne, ne_eq] at hne
  simp only [List.mem_cons, List.not_mem_nil, or_false] at hmem
  rcases hmem with rfl | rfl | rfl | rfl | rfl | rfl | rfl | rfl | rfl | rfl | rfl | rfl | rfl | rfl | rfl | rfl <;>
    (intro he; subst he; exact hne (xor_bit_eq_zero _ hbit))

lemma zip_snd_sublist {α β : Type _} :
    ∀ (a : List α) (b : List β), ((a.zip b).map Prod.snd).Sublist b
  | [], b => by simp
  | _ :: _, [] => by simp
  | x :: a, y :: b => by
    simpa using (zip_snd_sublist a b).cons₂ y

lemma zip_fst_sublist {α β : Type _} :
    ∀ (a : List α) (b : List β), ((a.zip b).map Prod.fst).Sublist a
  | [], b => by simp
  | _ :: _, [] => by simp
  | x :: a, y :: b => by
    simpa using (zip_fst_sublist a b).cons₂ x

lemma zip_mid_sublist {α β γ : Type _} (A : List α) (N : List β) (B : List γ) :
    ((A.zip (N.zip B)).map (fun t => t.2.1)).Sublist N := by
  have h1 : ((A.zip (N.zip B)).map Prod.snd).Sublist (N.zip B) := zip_snd_sublist _ _
  have h2 := h1.map Prod.fst
  have h3 : ((N.zip B).map Prod.fst).Sublist N := zip_fst_sublist _ _
  have h4 := h2.trans h3
  simpa [List.map_map, Function.comp] using h4

lemma changed_buttons_numbers_pairwise (last cur : XINPUT_STATE) :
    (changed_buttons last cur).Pairwise (fun t u => t.2.1 < u.2.1) := by
  simp only [changed_buttons]
  apply List.Pairwise.filter
  have hs := zip_mid_sublist
    (get_bit_values (cur.gamepad.buttons ^^^ last.gamepad.buttons) 16)
    ((List.range 16).map (fun i => i + 1))
    (get_bit_values cur.gamepad.buttons 16)
  have hN : (((List.range 16).map (fun i => i + 1)).Pairwise (· < ·)) := by decide
  have hp := hN.sublist hs
  rwa [List.pairwise_map] at hp

lemma mem_changed_buttons_bounds {last cur : XINPUT_STATE} {t : Nat × Nat × Nat}
    (ht : t ∈ changed_buttons last cur) : 1 ≤ t.2.1 ∧ t.2.1 ≤ 16 := by
  obtain ⟨c, n, p⟩ := t
  simp only [changed_buttons] at ht
  have h1 := (List.mem_filter.mp ht).1
  have h2 := (List.of_mem_zip h1).2
  have h3 := (List.of_mem_zip h2).1
  simp only [List.mem_map, List.mem_range] at h3
  obtain ⟨i, hi, rfl⟩ := h3
  exact (by omega : 1 ≤ i + 1 ∧ i + 1 ≤ 16)

/-! ## Dispatch order -/

/-- Rank of an axis in the order the spec claims
(`LX, LY, RX, RY, LTrigger, RTrigger`). -/
def spec_axis_rank : Axis → Nat
  | .LX => 0
  | .LY => 1
  | .RX => 2
  | .RY => 3
  | .LTrigger => 4
  | .RTrigger => 5

/-- Rank of an event under the dispatch order the spec claims:
`MissedPacket` first, then `AxisChanged` in spec axis order, then
`ButtonChanged` in ascending ordinal order.  `StateChanged` is not covered
by the claim and is skipped. -/
def spec_event_rank : Event → Option Nat
  | .missed_packet _ => some 0
  | .axis a _ => some (1 + spec_axis_rank a)
  | .button n _ => some (100 + n)
  | .state_changed _ => none

/-- Decidable sortedness of a rank list. -/
def isSortedLE : List Nat → Bool
  | [] => true
  | [_] => true
  | a :: b :: t => decide (a ≤ b) && isSortedLE (b :: t)

/-- The dispatch order claimed by the spec, as a decidable predicate on
the event list of one `update` call. -/
def claimOrdered (es : List Event) : Bool :=
  isSortedLE (es.filterMap spec_event_rank)

/-- Rank of an axis in the order the code actually scans
(`XINPUT_GAMEPAD` field order minus `buttons`). -/
def code_axis_rank : Axis → Nat
  | .LTrigger => 0
  | .RTrigger => 1
  | .LX => 2
  | .LY => 3
  | .RX => 4
  | .RY => 5

/-- Rank of an event under the dispatch order the code actually produces. -/
def code_event_rank : Event → Nat
  | .missed_packet _ => 0
  | .state_changed _ => 1
  | .axis a _ => 2 + code_axis_rank a
  | .button n _ => 10 + n

lemma mem_flatten_axisEvent {nrm : Bool} {dz dp : ℚ} {last cur : XINPUT_STATE}
    {L : List Axis} {e : Event}
    (h : e ∈ (L.map (axisEvent nrm dz dp last cur)).flatten) :
    ∃ a ∈ L, e = Event.axis a (finalAxisVal nrm dz cur a) := by
  rw [List.mem_flatten] at h
  obtain ⟨l, hl, hel⟩ := h
  rw [List.mem_map] at hl
  obtain ⟨a, haL, rfl⟩ := hl
  exact ⟨a, haL, mem_axisEvent hel⟩

lemma axisEvent_pairwise {nrm : Bool} {dz dp : ℚ} {last cur : XINPUT_STATE}
    (a : Axis) (R : Event → Event → Prop) :
    (axisEvent nrm dz dp last cur a).Pairwise R := by
  unfold axisEvent
  split <;> simp

lemma axis_flatten_pairwise (nrm : Bool) (dz dp : ℚ) (last cur : XINPUT_STATE) :
    ∀ (L : List Axis),
      L.Pairwise (fun a b => code_axis_rank a < code_axis_rank b) →
      ((L.map (axisEvent nrm dz dp last cur)).flatten).Pairwise
        (fun e f => code_event_rank e ≤ code_event_rank f)
  | [], _ => by simp
  | a :: rest, h => by
    rw [List.pairwise_cons] at h
    simp only [List.map_cons, List.flatten_cons]
    rw [List.pairwise_append]
    refine ⟨axisEvent_pairwise a _, axis_flatten_pairwise nrm dz dp last cur rest h.2, ?_⟩
    intro e he f hf
    obtain ⟨b, hbL, rfl⟩ := mem_flatten_axisEvent hf
    rw [mem_axisEvent he]
    simp only [code_event_rank]
    exact Nat.add_le_add_left (Nat.le_of_lt (h.1 b hbL)) 2

lemma button_events_pairwise (last cur : XINPUT_STATE) :
    (((changed_buttons last cur).map (fun t => Event.button t.2.1 t.2.2)).Pairwise
      (fun e f => code_event_rank e ≤ code_event_rank f)) := by
  rw [List.pairwise_map]
  refine (changed_buttons_numbers_pairwise last cur).imp ?_
  intro t u h
  simp only [code_event_rank]
  omega

lemma mem_button_events_rank {last cur : XINPUT_STATE} {e : Event}
    (h : e ∈ (changed_buttons last cur).map (fun t => Event.button t.2.1 t.2.2)) :
    11 ≤ code_event_rank e ∧ code_event_rank e ≤ 26 := by
  rw [List.mem_map] at h
  obtain ⟨t, ht, rfl⟩ := h
  have := mem_changed_buttons_bounds ht
  simp only [code_event_rank]
  omega

lemma mem_axis_part_rank {nrm : Bool} {dz dp : ℚ} {last cur : XINPUT_STATE} {e : Event}
    (h : e ∈ (axis_scan_order.map (axisEvent nrm dz dp last cur)).flatten) :
    2 ≤ code_event_rank e ∧ code_event_rank e ≤ 7 := by
  obtain ⟨a, _, rfl⟩ := mem_flatten_axisEvent h
  simp only [code_event_rank]
  cases a <;> simp [code_axis_rank]

/-- C1 (as stated, refuted): on a changed snapshot in which both `LX` and
`LTrigger` moved, the code dispatches `AxisChanged LTrigger` before
`AxisChanged LX`, because the axis scan follows the ctypes field order
(triggers first), not the claimed `LX, LY, RX, RY, LTrigger, RTrigger`
order.  The produced event list therefore violates the claimed fixed
dispatch order. -/
theorem C1_counterexample :
    claimOrdered
      ((XboxController.init 0 DEADZONE DAMPEN true
          (some ⟨1, ⟨0, 0, 0, 0, 0, 0, 0⟩⟩)).updateEvents
        (some ⟨2, ⟨0, 255, 0, 16384, 0, 0, 0⟩⟩)) = false := by
  rw [updateEvents_changed _ ⟨1, ⟨0, 0, 0, 0, 0, 0, 0⟩⟩ _ rfl (by decide)]
  rw [changed_buttons_eq _ _ (by norm_num) (by norm_num)]
  norm_num [missedGap, axis_scan_order, axisEvent, axisFires, finalAxisVal,
    dzClamp, translateM, translate_using_data_size, XINPUT_GAMEPAD.axisVal,
    Axis.data_size, XboxController.init, Nat.xor_self, claimOrdered,
    spec_event_rank, spec_axis_rank, isSortedLE, DEADZONE, DAMPEN]
  have h1 : |(16384 : ℚ) / 65535| = 16384 / 65535 := abs_of_nonneg (by norm_num)
  rw [h1]
  norm_num [spec_event_rank, spec_axis_rank, isSortedLE]

/-- C1 (amended): for every `update` call, the produced events are
dispatched in the fixed order: `MissedPacket` (if any) first, then
`StateChanged`, then all `AxisChanged` events in the ctypes field order
`LTrigger, RTrigger, LX, LY, RX, RY` (triggers before sticks — not the
claimed `LX, LY, RX, RY, LTrigger, RTrigger` order), then all
`ButtonChanged` events in ascending ordinal order `1..16`. -/
theorem C1_dispatch_order (s : XboxController) (backend : Option XINPUT_STATE) :
    (s.updateEvents backend).Pairwise
      (fun e f => code_event_rank e ≤ code_event_rank f) := by
  match backend with
  | none =>
    simp [XboxController.updateEvents, XboxController.updateTrace,
      XboxController.update]
  | some cur =>
    match hl : s.last_state with
    | none =>
      simp [XboxController.updateEvents, XboxController.updateTrace,
        XboxController.update, hl]
    | some last =>
      by_cases hpn : cur.packet_number = last.packet_number
      · rw [XboxController.updateEvents, XboxController.updateTrace,
          update_pn_same s last cur hl hpn]
        simp
      · rw [updateEvents_changed s last cur hl hpn]
        have htail : (Event.state_changed cur ::
            ((axis_scan_order.map
                (axisEvent s.normalize_axes s.deadzone s.dampen last cur)).flatten
              ++ (changed_buttons last cur).map
                  (fun t => Event.button t.2.1 t.2.2))).Pairwise
            (fun e f => code_event_rank e ≤ code_event_rank f) := by
          rw [List.pairwise_cons]
          constructor
          · intro e he
            rw [List.mem_append] at he
            have h1 : code_event_rank (Event.state_changed cur) = 1 := rfl
            rcases he with he | he
            · have := mem_axis_part_rank he
              omega
            · have := mem_button_events_rank he
              omega
          · rw [List.pairwise_append]
            refine ⟨axis_flatten_pairwise _ _ _ _ _ axis_scan_order (by decide),
              button_events_pairwise last cur, ?_⟩
            intro e he f hf
            have h1 := mem_axis_part_rank he
            have h2 := mem_button_events_rank hf
            omega
        rw [List.pairwise_append]
        refine ⟨?_, htail, ?_⟩
        · split <;> simp
        · intro e he f hf
          have he0 : code_event_rank e = 0 := by
            split at he
            · simp only [List.mem_singleton] at he
              subst he
              rfl
            · simp at he
          omega

/-! ## Missed-packet accounting -/

/-- Sum of the positive packet-number gaps
(`cur.packet_number - prev.packet_number - 1` when positive) along a
snapshot sequence, starting from stored packet number `p`. -/
def posGapSum : Nat → List XINPUT_STATE → Int
  | _, [] => 0
  | p, st :: rest =>
    (if ((st.packet_number : Int) - (p : Int) - 1) > 0
     then (st.packet_number : Int) - (p : Int) - 1 else 0)
    + posGapSum st.packet_number rest

lemma posGapSum_nonneg : ∀ (p : Nat) (snaps : List XINPUT_STATE),
    0 ≤ posGapSum p snaps
  | _, [] => le_refl 0
  | p, st :: rest => by
    simp only [posGapSum]
    have := posGapSum_nonneg st.packet_number rest
    split <;> omega

lemma run_missed_formula :
    ∀ (snaps : List XINPUT_STATE) (s : XboxController) (l : XINPUT_STATE),
      s.last_state = some l →
      List.Chain (fun a b => a.packet_number ≤ b.packet_number) l snaps →
      (s.run snaps).missed_packets
        = s.missed_packets + posGapSum l.packet_number snaps
  | [], s, l, _, _ => by simp [XboxController.run, posGapSum]
  | st :: rest, s, l, hl, hch => by
    rw [List.chain_cons] at hch
    obtain ⟨hle, hch'⟩ := hch
    by_cases hpn : st.packet_number = l.packet_number
    · have ih := run_missed_formula rest { s with last_state := some st } st rfl hch'
      simp only [XboxController.run, update_pn_same s l st hl hpn]
      rw [ih]
      simp only [posGapSum]
      split <;> omega
    · have hu := update_pn_changed s l st hl hpn
      have ih := run_missed_formula rest (s.update (some st)).1 st hu.2.2 hch'
      simp only [XboxController.run]
      rw [ih, hu.1]
      simp only [posGapSum, missedGap]
      split <;> omega

/-- C2 counterexample: the claim says the missed-packet counter never
decreases across any sequence of `update` calls, but
`update_packet_count` adds the raw gap `cur - last - 1` even when it is
negative.  Polling with packet number 5 while the stored snapshot has
packet number 8 drives the counter from 0 down to -4. -/
theorem C2_counterexample :
    ((XboxController.init 0 DEADZONE DAMPEN true (some ⟨8, ⟨0, 0, 0, 0, 0, 0, 0⟩⟩)).update (some ⟨5, ⟨0, 0, 0, 0, 0, 0, 0⟩⟩)).1.missed_packets
      < (XboxController.init 0 DEADZONE DAMPEN true (some ⟨8, ⟨0, 0, 0, 0, 0, 0, 0⟩⟩)).missed_packets := by
  have h := update_pn_changed (XboxController.init 0 DEADZONE DAMPEN true (some ⟨8, ⟨0, 0, 0, 0, 0, 0, 0⟩⟩))
    ⟨8, ⟨0, 0, 0, 0, 0, 0, 0⟩⟩ ⟨5, ⟨0, 0, 0, 0, 0, 0, 0⟩⟩ rfl (by decide)
  rw [h.1]
  norm_num [missedGap, XboxController.init]

/-- C2 (amended): as long as the polled packet numbers never decrease
(the driver contract; the raw counter wraps only modulo 2^32 and a wrap
shows up as a decrease), the missed-packet counter never decreases and
after every sequence of updates it equals its starting value plus the sum
of all positive packet-number gaps; in particular polling `[5, 5, 8]`
from a snapshot with packet number 5 yields no events on the second poll
and on the third poll emits `MissedPacket 2` and increases the counter by
exactly 2. -/
theorem C2_missed_packet_accounting (s : XboxController) (l : XINPUT_STATE)
    (snaps : List XINPUT_STATE) (hl : s.last_state = some l)
    (hchain : List.Chain (fun a b => a.packet_number ≤ b.packet_number) l snaps) :
    ((s.run snaps).missed_packets
        = s.missed_packets + posGapSum l.packet_number snaps
      ∧ s.missed_packets ≤ (s.run snaps).missed_packets)
    ∧ ((XboxController.init 0 DEADZONE DAMPEN true (some ⟨5, ⟨0, 0, 0, 0, 0, 0, 0⟩⟩)).update (some ⟨5, ⟨0, 0, 0, 0, 0, 0, 0⟩⟩)).1.updateEvents (some ⟨5, ⟨0, 0, 0, 0, 0, 0, 0⟩⟩) = []
    ∧ Event.missed_packet 2 ∈ (((XboxController.init 0 DEADZONE DAMPEN true (some ⟨5, ⟨0, 0, 0, 0, 0, 0, 0⟩⟩)).update (some ⟨5, ⟨0, 0, 0, 0, 0, 0, 0⟩⟩)).1.update (some ⟨5, ⟨0, 0, 0, 0, 0, 0, 0⟩⟩)).1.updateEvents (some ⟨8, ⟨0, 0, 0, 0, 0, 0, 0⟩⟩)
    ∧ ((((XboxController.init 0 DEADZONE DAMPEN true (some ⟨5, ⟨0, 0, 0, 0, 0, 0, 0⟩⟩)).update (some ⟨5, ⟨0, 0, 0, 0, 0, 0, 0⟩⟩)).1.update (some ⟨5, ⟨0, 0, 0, 0, 0, 0, 0⟩⟩)).1.update (some ⟨8, ⟨0, 0, 0, 0, 0, 0, 0⟩⟩)).1.missed_packets = (((XboxController.init 0 DEADZONE DAMPEN true (some ⟨5, ⟨0, 0, 0, 0, 0, 0, 0⟩⟩)).update (some ⟨5, ⟨0, 0, 0, 0, 0, 0, 0⟩⟩)).1.update (some ⟨5, ⟨0, 0, 0, 0, 0, 0, 0⟩⟩)).1.missed_packets + 2 := by
  have e1 := update_pn_same (XboxController.init 0 DEADZONE DAMPEN true (some ⟨5, ⟨0, 0, 0, 0, 0, 0, 0⟩⟩)) ⟨5, ⟨0, 0, 0, 0, 0, 0, 0⟩⟩ ⟨5, ⟨0, 0, 0, 0, 0, 0, 0⟩⟩ rfl rfl
  refine ⟨⟨run_missed_formula snaps s l hl hchain, ?_⟩, ?_, ?_, ?_⟩
  · rw [run_missed_formula snaps s l hl hchain]
    have := posGapSum_nonneg l.packet_number snaps
    omega
  · simp only [e1]
    have e2 := update_pn_same ((XboxController.init 0 DEADZONE DAMPEN true (some ⟨5, ⟨0, 0, 0, 0, 0, 0, 0⟩⟩)).update (some ⟨5, ⟨0, 0, 0, 0, 0, 0, 0⟩⟩)).1
      ⟨5, ⟨0, 0, 0, 0, 0, 0, 0⟩⟩ ⟨5, ⟨0, 0, 0, 0, 0, 0, 0⟩⟩ (by rw [e1]) rfl
    simp only [XboxController.updateEvents, XboxController.updateTrace, e2]
    rfl
  · have e2 := update_pn_same ((XboxController.init 0 DEADZONE DAMPEN true (some ⟨5, ⟨0, 0, 0, 0, 0, 0, 0⟩⟩)).update (some ⟨5, ⟨0, 0, 0, 0, 0, 0, 0⟩⟩)).1
      ⟨5, ⟨0, 0, 0, 0, 0, 0, 0⟩⟩ ⟨5, ⟨0, 0, 0, 0, 0, 0, 0⟩⟩ (by rw [e1]) rfl
    have hl2 : (((XboxController.init 0 DEADZONE DAMPEN true (some ⟨5, ⟨0, 0, 0, 0, 0, 0, 0⟩⟩)).update (some ⟨5, ⟨0, 0, 0, 0, 0, 0, 0⟩⟩)).1.update (some ⟨5, ⟨0, 0, 0, 0, 0, 0, 0⟩⟩)).1.last_state = some ⟨5, ⟨0, 0, 0, 0, 0, 0, 0⟩⟩ := by
      rw [e2]
    rw [updateEvents_changed (((XboxController.init 0 DEADZONE DAMPEN true (some ⟨5, ⟨0, 0, 0, 0, 0, 0, 0⟩⟩)).update (some ⟨5, ⟨0, 0, 0, 0, 0, 0, 0⟩⟩)).1.update (some ⟨5, ⟨0, 0, 0, 0, 0, 0, 0⟩⟩)).1 ⟨5, ⟨0, 0, 0, 0, 0, 0, 0⟩⟩ ⟨8, ⟨0, 0, 0, 0, 0, 0, 0⟩⟩ hl2 (by decide)]
    have hg : missedGap ⟨5, ⟨0, 0, 0, 0, 0, 0, 0⟩⟩ ⟨8, ⟨0, 0, 0, 0, 0, 0, 0⟩⟩ = 2 := by
      norm_num [missedGap]
    rw [hg]
    simp
  · have e2 := update_pn_same ((XboxController.init 0 DEADZONE DAMPEN true (some ⟨5, ⟨0, 0, 0, 0, 0, 0, 0⟩⟩)).update (some ⟨5, ⟨0, 0, 0, 0, 0, 0, 0⟩⟩)).1
      ⟨5, ⟨0, 0, 0, 0, 0, 0, 0⟩⟩ ⟨5, ⟨0, 0, 0, 0, 0, 0, 0⟩⟩ (by rw [e1]) rfl
    have hl2 : (((XboxController.init 0 DEADZONE DAMPEN true (some ⟨5, ⟨0, 0, 0, 0, 0, 0, 0⟩⟩)).update (some ⟨5, ⟨0, 0, 0, 0, 0, 0, 0⟩⟩)).1.update (some ⟨5, ⟨0, 0, 0, 0, 0, 0, 0⟩⟩)).1.last_state = some ⟨5, ⟨0, 0, 0, 0, 0, 0, 0⟩⟩ := by
      rw [e2]
    have h := update_pn_changed (((XboxController.init 0 DEADZONE DAMPEN true (some ⟨5, ⟨0, 0, 0, 0, 0, 0, 0⟩⟩)).update (some ⟨5, ⟨0, 0, 0, 0, 0, 0, 0⟩⟩)).1.update (some ⟨5, ⟨0, 0, 0, 0, 0, 0, 0⟩⟩)).1 ⟨5, ⟨0, 0, 0, 0, 0, 0, 0⟩⟩ ⟨8, ⟨0, 0, 0, 0, 0, 0, 0⟩⟩ hl2 (by decide)
    rw [h.1]
    norm_num [missedGap]

/-- Witness for `C2_missed_packet_accounting` at the packet-number
sequence `[5, 5, 8]` starting from a stored snapshot with packet
number 5. -/
theorem C2_witness :
    (((XboxController.init 0 DEADZONE DAMPEN true (some ⟨5, ⟨0, 0, 0, 0, 0, 0, 0⟩⟩)).run [⟨5, ⟨0, 0, 0, 0, 0, 0, 0⟩⟩, ⟨8, ⟨0, 0, 0, 0, 0, 0, 0⟩⟩]).missed_packets
        = (XboxController.init 0 DEADZONE DAMPEN true (some ⟨5, ⟨0, 0, 0, 0, 0, 0, 0⟩⟩)).missed_packets + posGapSum 5 [⟨5, ⟨0, 0, 0, 0, 0, 0, 0⟩⟩, ⟨8, ⟨0, 0, 0, 0, 0, 0, 0⟩⟩]
      ∧ (XboxController.init 0 DEADZONE DAMPEN true (some ⟨5, ⟨0, 0, 0, 0, 0, 0, 0⟩⟩)).missed_packets
        ≤ ((XboxController.init 0 DEADZONE DAMPEN true (some ⟨5, ⟨0, 0, 0, 0, 0, 0, 0⟩⟩)).run [⟨5, ⟨0, 0, 0, 0, 0, 0, 0⟩⟩, ⟨8, ⟨0, 0, 0, 0, 0, 0, 0⟩⟩]).missed_packets)
    ∧ ((XboxController.init 0 DEADZONE DAMPEN true (some ⟨5, ⟨0, 0, 0, 0, 0, 0, 0⟩⟩)).update (some ⟨5, ⟨0, 0, 0, 0, 0, 0, 0⟩⟩)).1.updateEvents (some ⟨5, ⟨0, 0, 0, 0, 0, 0, 0⟩⟩) = []
    ∧ Event.missed_packet 2 ∈ (((XboxController.init 0 DEADZONE DAMPEN true (some ⟨5, ⟨0, 0, 0, 0, 0, 0, 0⟩⟩)).update (some ⟨5, ⟨0, 0, 0, 0, 0, 0, 0⟩⟩)).1.update (some ⟨5, ⟨0, 0, 0, 0, 0, 0, 0⟩⟩)).1.updateEvents (some ⟨8, ⟨0, 0, 0, 0, 0, 0, 0⟩⟩)
    ∧ ((((XboxController.init 0 DEADZONE DAMPEN true (some ⟨5, ⟨0, 0, 0, 0, 0, 0, 0⟩⟩)).update (some ⟨5, ⟨0, 0, 0, 0, 0, 0, 0⟩⟩)).1.update (some ⟨5, ⟨0, 0, 0, 0, 0, 0, 0⟩⟩)).1.update (some ⟨8, ⟨0, 0, 0, 0, 0, 0, 0⟩⟩)).1.missed_packets = (((XboxController.init 0 DEADZONE DAMPEN true (some ⟨5, ⟨0, 0, 0, 0, 0, 0, 0⟩⟩)).update (some ⟨5, ⟨0, 0, 0, 0, 0, 0, 0⟩⟩)).1.update (some ⟨5, ⟨0, 0, 0, 0, 0, 0, 0⟩⟩)).1.missed_packets + 2 :=
  C2_missed_packet_accounting (XboxController.init 0 DEADZONE DAMPEN true (some ⟨5, ⟨0, 0, 0, 0, 0, 0, 0⟩⟩)) ⟨5, ⟨0, 0, 0, 0, 0, 0, 0⟩⟩ [⟨5, ⟨0, 0, 0, 0, 0, 0, 0⟩⟩, ⟨8, ⟨0, 0, 0, 0, 0, 0, 0⟩⟩] rfl
    (List.Chain.cons (by decide) (List.Chain.cons (by decide) List.Chain.nil))

/-! ## Connection state, idempotence, atomicity -/

/-- C3 counterexample: a poll on a connected session while the backend
reports no device does raise, but it does not transition the session to
Disconnected: `_last_state` keeps its old non-`None` value, so
`is_connected()` still returns `True` after the failed poll, contradicting
the claimed `Connected → Disconnected` transition. -/
theorem C3_counterexample :
    ((XboxController.init 0 DEADZONE DAMPEN true (some ⟨5, ⟨0, 0, 0, 0, 0, 0, 0⟩⟩)).update none).2.2.isSome = true
    ∧ ((XboxController.init 0 DEADZONE DAMPEN true (some ⟨5, ⟨0, 0, 0, 0, 0, 0, 0⟩⟩)).update none).1.is_connected = true :=
  ⟨rfl, rfl⟩

/-- C3 (amended): a poll while the backend reports no attached device
fails loudly (raises) but leaves the whole session state — including the
connection state — unchanged, so the session never transitions from
Connected to Disconnected; and a session created while disconnected never
reaches Connected, because every poll raises (an `AttributeError` reading
`None.packet_number`) even when the backend reports a device; there is no
automatic reconnection. -/
theorem C3_connection_state (s s' : XboxController) (st : XINPUT_STATE)
    (hs' : s'.last_state = none) :
    s.update none = (s, [], some (UpdateError.not_connected s.device_number))
    ∧ (s.update none).1.is_connected = s.is_connected
    ∧ s'.update (some st) = (s', [], some UpdateError.attr_error) := by
  refine ⟨rfl, rfl, ?_⟩
  simp [XboxController.update, hs']

/-- Witness for `C3_connection_state`: a connected and a disconnected
session at device 0. -/
theorem C3_witness :
    (XboxController.init 0 DEADZONE DAMPEN true (some ⟨5, ⟨0, 0, 0, 0, 0, 0, 0⟩⟩)).update none
      = ((XboxController.init 0 DEADZONE DAMPEN true (some ⟨5, ⟨0, 0, 0, 0, 0, 0, 0⟩⟩)), [], some (UpdateError.not_connected 0))
    ∧ ((XboxController.init 0 DEADZONE DAMPEN true (some ⟨5, ⟨0, 0, 0, 0, 0, 0, 0⟩⟩)).update none).1.is_connected = (XboxController.init 0 DEADZONE DAMPEN true (some ⟨5, ⟨0, 0, 0, 0, 0, 0, 0⟩⟩)).is_connected
    ∧ (XboxController.init 0 DEADZONE DAMPEN true none).update (some ⟨5, ⟨0, 0, 0, 0, 0, 0, 0⟩⟩)
      = ((XboxController.init 0 DEADZONE DAMPEN true none), [], some UpdateError.attr_error) :=
  C3_connection_state (XboxController.init 0 DEADZONE DAMPEN true (some ⟨5, ⟨0, 0, 0, 0, 0, 0, 0⟩⟩)) (XboxController.init 0 DEADZONE DAMPEN true none) ⟨5, ⟨0, 0, 0, 0, 0, 0, 0⟩⟩ rfl

/-- C7: polling twice while the backend returns a snapshot equal to the
stored last snapshot (same packet number and fields) produces zero events
and zero errors both times and leaves the entire session state — axes,
buttons, counters, rumble vector and stored snapshot — unchanged. -/
theorem C7_poll_idempotent (s : XboxController) (st : XINPUT_STATE)
    (h : s.last_state = some st) :
    s.update (some st) = (s, [], none)
    ∧ ((s.update (some st)).1).update (some st) = (s, [], none) := by
  have h1 : s.update (some st) = (s, [], none) := by
    rw [update_pn_same s st st h rfl]
    have h2 : ({ s with last_state := some st } : XboxController) = s := by
      rw [← h]
    rw [h2]
  exact ⟨h1, by rw [h1]; exact h1⟩

/-- Witness for `C7_poll_idempotent` at a concrete connected session. -/
theorem C7_witness :
    (XboxController.init 0 DEADZONE DAMPEN true (some ⟨5, ⟨0, 0, 0, 0, 0, 0, 0⟩⟩)).update (some ⟨5, ⟨0, 0, 0, 0, 0, 0, 0⟩⟩) = ((XboxController.init 0 DEADZONE DAMPEN true (some ⟨5, ⟨0, 0, 0, 0, 0, 0, 0⟩⟩)), [], none)
    ∧ (((XboxController.init 0 DEADZONE DAMPEN true (some ⟨5, ⟨0, 0, 0, 0, 0, 0, 0⟩⟩)).update (some ⟨5, ⟨0, 0, 0, 0, 0, 0, 0⟩⟩)).1).update (some ⟨5, ⟨0, 0, 0, 0, 0, 0, 0⟩⟩)
      = ((XboxController.init 0 DEADZONE DAMPEN true (some ⟨5, ⟨0, 0, 0, 0, 0, 0, 0⟩⟩)), [], none) :=
  C7_poll_idempotent (XboxController.init 0 DEADZONE DAMPEN true (some ⟨5, ⟨0, 0, 0, 0, 0, 0, 0⟩⟩)) ⟨5, ⟨0, 0, 0, 0, 0, 0, 0⟩⟩ rfl

/-- C9: error atomicity of `update`.  For a connected session, a poll
while the backend reports no attached device raises and leaves every
component of the session state — axes map, buttons array,
`received_packets`, `missed_packets`, rumble vector and the stored last
snapshot — exactly as it was: the raise happens before any mutation. -/
theorem C9_error_atomicity (s : XboxController) (_h : s.is_connected = true) :
    s.update none = (s, [], some (UpdateError.not_connected s.device_number)) :=
  rfl

/-- Witness for `C9_error_atomicity` at a concrete connected session. -/
theorem C9_witness :
    (XboxController.init 0 DEADZONE DAMPEN true (some ⟨5, ⟨0, 0, 0, 0, 0, 0, 0⟩⟩)).update none
      = ((XboxController.init 0 DEADZONE DAMPEN true (some ⟨5, ⟨0, 0, 0, 0, 0, 0, 0⟩⟩)), [], some (UpdateError.not_connected 0)) :=
  C9_error_atomicity (XboxController.init 0 DEADZONE DAMPEN true (some ⟨5, ⟨0, 0, 0, 0, 0, 0, 0⟩⟩)) rfl

lemma mem_flatten_axisEvent' {nrm : Bool} {dz dp : ℚ} {last cur : XINPUT_STATE}
    {L : List Axis} {e : Event}
    (h : e ∈ (L.map (axisEvent nrm dz dp last cur)).flatten) :
    ∃ a ∈ L, e ∈ axisEvent nrm dz dp last cur a := by
  rw [List.mem_flatten] at h
  obtain ⟨l, hl, hel⟩ := h
  rw [List.mem_map] at hl
  obtain ⟨a, haL, rfl⟩ := hl
  exact ⟨a, haL, hel⟩

/-- C5: dampen suppression.  If the absolute difference of the normalized
previous and current values of an axis is at most the dampen threshold,
the axis loop emits no `AxisChanged` event for that axis and leaves that
axis's cached value unchanged — regardless of the deadzone setting. -/
theorem C5_dampen_suppression (s : XboxController) (last cur : XINPUT_STATE)
    (a : Axis)
    (h : |translateM s.normalize_axes (last.gamepad.axisVal a) a.data_size
          - translateM s.normalize_axes (cur.gamepad.axisVal a) a.data_size|
        ≤ s.dampen) :
    (∀ v, Event.axis a v ∉ (s.dispatch_axis_events last cur).2.map Prod.fst)
    ∧ (s.dispatch_axis_events last cur).1.axes.get a = s.axes.get a := by
  have hnf : ¬ axisFires s.normalize_axes s.deadzone s.dampen last cur a :=
    fun hf => absurd hf.1 (not_lt.mpr h)
  constructor
  · intro v hv
    have he : (s.dispatch_axis_events last cur).2.map Prod.fst
        = (axis_scan_order.map
            (axisEvent s.normalize_axes s.deadzone s.dampen last cur)).flatten :=
      dispatch_axis_loop_events last cur axis_scan_order s
    rw [he] at hv
    obtain ⟨b, _, hb⟩ := mem_flatten_axisEvent' hv
    have hshape := mem_axisEvent hb
    simp only [Event.axis.injEq] at hshape
    obtain ⟨rfl, -⟩ := hshape
    rw [axisEvent, if_neg hnf] at hb
    simp at hb
  · exact dispatch_axis_loop_get axis_scan_order s hnf

/-- Witness for `C5_dampen_suppression`: an axis whose raw value did not
move at all (difference 0 is within any nonnegative dampen). -/
theorem C5_witness :
    (∀ v, Event.axis Axis.LX v ∉
      ((XboxController.init 0 DEADZONE DAMPEN true (some ⟨5, ⟨0, 0, 0, 0, 0, 0, 0⟩⟩)).dispatch_axis_events
          ⟨5, ⟨0, 0, 0, 0, 0, 0, 0⟩⟩ ⟨6, ⟨0, 0, 0, 0, 0, 0, 0⟩⟩).2.map Prod.fst)
    ∧ ((XboxController.init 0 DEADZONE DAMPEN true (some ⟨5, ⟨0, 0, 0, 0, 0, 0, 0⟩⟩)).dispatch_axis_events
          ⟨5, ⟨0, 0, 0, 0, 0, 0, 0⟩⟩ ⟨6, ⟨0, 0, 0, 0, 0, 0, 0⟩⟩).1.axes.get Axis.LX
      = (XboxController.init 0 DEADZONE DAMPEN true (some ⟨5, ⟨0, 0, 0, 0, 0, 0, 0⟩⟩)).axes.get Axis.LX :=
  C5_dampen_suppression _ _ _ Axis.LX
    (by norm_num [translateM, translate_using_data_size, XINPUT_GAMEPAD.axisVal,
      Axis.data_size, DAMPEN, XboxController.init])

/-- C6: for every axis change that passes the dampen check, each endpoint
whose magnitude is strictly below the deadzone is replaced by exactly 0
before the equality comparison (no event is emitted exactly when the
clamped endpoints coincide); and whenever an `AxisChanged` event is
emitted for a stick (non-trigger) axis, the emitted and cached value is
`clamp(2 * deadzone-clamped current normalized value, -1, 1)`, never the
un-doubled value. -/
theorem C6_deadzone_and_doubling (s : XboxController) (last cur : XINPUT_STATE)
    (a : Axis)
    (hpass : s.dampen
      < |translateM s.normalize_axes (last.gamepad.axisVal a) a.data_size
          - translateM s.normalize_axes (cur.gamepad.axisVal a) a.data_size|) :
    ((s.process_axis last cur a).2 = [] ↔
      dzClamp s.deadzone (translateM s.normalize_axes (last.gamepad.axisVal a) a.data_size)
        = dzClamp s.deadzone (translateM s.normalize_axes (cur.gamepad.axisVal a) a.data_size))
    ∧ (a ∉ [Axis.LTrigger, Axis.RTrigger] →
        ∀ v obs, (Event.axis a v, obs) ∈ (s.process_axis last cur a).2 →
          v = max (-1) (min
            (2 * dzClamp s.deadzone
              (translateM s.normalize_axes (cur.gamepad.axisVal a) a.data_size)) 1)
          ∧ (s.process_axis last cur a).1.axes.get a = v) := by
  by_cases hdz : dzClamp s.deadzone (translateM s.normalize_axes (last.gamepad.axisVal a) a.data_size)
      = dzClamp s.deadzone (translateM s.normalize_axes (cur.gamepad.axisVal a) a.data_size)
  · have hnf : ¬ axisFires s.normalize_axes s.deadzone s.dampen last cur a :=
      fun hf => hf.2 hdz
    rw [process_axis_no_fire hnf]
    refine ⟨by simpa using hdz, ?_⟩
    intro _ v obs hv
    simp at hv
  · have hf : axisFires s.normalize_axes s.deadzone s.dampen last cur a :=
      ⟨hpass, hdz⟩
    rw [process_axis_eq, if_pos hf]
    refine ⟨by simpa using hdz, ?_⟩
    intro hmem v obs hv
    simp only [List.mem_singleton, Prod.mk.injEq] at hv
    obtain ⟨hv1, -⟩ := hv
    simp only [Event.axis.injEq, true_and] at hv1
    subst hv1
    constructor
    · simp only [finalAxisVal, if_pos hmem]
      ring_nf
    · simp [AxesMap.get_set_same]

/-- Witness for `C6_deadzone_and_doubling`: the left stick X axis moving
from 0 to 16384 (raw) on the default configuration. -/
theorem C6_witness :
    (((XboxController.init 0 DEADZONE DAMPEN true (some ⟨5, ⟨0, 0, 0, 0, 0, 0, 0⟩⟩)).process_axis (⟨5, ⟨0, 0, 0, 0, 0, 0, 0⟩⟩ : XINPUT_STATE) (⟨6, ⟨0, 0, 0, 16384, 0, 0, 0⟩⟩ : XINPUT_STATE) Axis.LX).2 = [] ↔
      dzClamp (XboxController.init 0 DEADZONE DAMPEN true (some ⟨5, ⟨0, 0, 0, 0, 0, 0, 0⟩⟩)).deadzone
          (translateM (XboxController.init 0 DEADZONE DAMPEN true (some ⟨5, ⟨0, 0, 0, 0, 0, 0, 0⟩⟩)).normalize_axes ((⟨5, ⟨0, 0, 0, 0, 0, 0, 0⟩⟩ : XINPUT_STATE).gamepad.axisVal Axis.LX) (Axis.data_size Axis.LX))
        = dzClamp (XboxController.init 0 DEADZONE DAMPEN true (some ⟨5, ⟨0, 0, 0, 0, 0, 0, 0⟩⟩)).deadzone
          (translateM (XboxController.init 0 DEADZONE DAMPEN true (some ⟨5, ⟨0, 0, 0, 0, 0, 0, 0⟩⟩)).normalize_axes ((⟨6, ⟨0, 0, 0, 16384, 0, 0, 0⟩⟩ : XINPUT_STATE).gamepad.axisVal Axis.LX) (Axis.data_size Axis.LX)))
    ∧ (Axis.LX ∉ [Axis.LTrigger, Axis.RTrigger] →
        ∀ v obs, (Event.axis Axis.LX v, obs) ∈ ((XboxController.init 0 DEADZONE DAMPEN true (some ⟨5, ⟨0, 0, 0, 0, 0, 0, 0⟩⟩)).process_axis (⟨5, ⟨0, 0, 0, 0, 0, 0, 0⟩⟩ : XINPUT_STATE) (⟨6, ⟨0, 0, 0, 16384, 0, 0, 0⟩⟩ : XINPUT_STATE) Axis.LX).2 →
          v = max (-1) (min
            (2 * dzClamp (XboxController.init 0 DEADZONE DAMPEN true (some ⟨5, ⟨0, 0, 0, 0, 0, 0, 0⟩⟩)).deadzone
              (translateM (XboxController.init 0 DEADZONE DAMPEN true (some ⟨5, ⟨0, 0, 0, 0, 0, 0, 0⟩⟩)).normalize_axes ((⟨6, ⟨0, 0, 0, 16384, 0, 0, 0⟩⟩ : XINPUT_STATE).gamepad.axisVal Axis.LX) (Axis.data_size Axis.LX))) 1)
          ∧ ((XboxController.init 0 DEADZONE DAMPEN true (some ⟨5, ⟨0, 0, 0, 0, 0, 0, 0⟩⟩)).process_axis (⟨5, ⟨0, 0, 0, 0, 0, 0, 0⟩⟩ : XINPUT_STATE) (⟨6, ⟨0, 0, 0, 16384, 0, 0, 0⟩⟩ : XINPUT_STATE) Axis.LX).1.axes.get Axis.LX = v) :=
  C6_deadzone_and_doubling (XboxController.init 0 DEADZONE DAMPEN true (some ⟨5, ⟨0, 0, 0, 0, 0, 0, 0⟩⟩)) (⟨5, ⟨0, 0, 0, 0, 0, 0, 0⟩⟩ : XINPUT_STATE) (⟨6, ⟨0, 0, 0, 16384, 0, 0, 0⟩⟩ : XINPUT_STATE) Axis.LX
    (by
      have habs : |(16384 : ℚ) / 65535| = 16384 / 65535 := abs_of_nonneg (by norm_num)
      norm_num [translateM, translate_using_data_size, XINPUT_GAMEPAD.axisVal,
        Axis.data_size, DAMPEN, XboxController.init, habs])

/-! ## D-pad lookup -/

/-- The 8-direction D-pad lookup table the spec claims, as a function of
the four button states `(L, R, U, D)`. -/
def dpad_table (l r u d : Bool) : Int :=
  match l, r, u, d with
  | false, false, true, false => 0
  | false, true, true, false => 45
  | false, true, false, false => 90
  | false, true, false, true => 135
  | false, false, false, true => 180
  | true, false, false, true => 225
  | true, false, false, false => 270
  | true, false, true, false => 315
  | _, _, _, _ => -1

/-- C8: for every session, `get_dpad` returns exactly the spec's
8-direction table value of the four D-pad button states `(L, R, U, D)`,
and `-1` for every other combination including all-false. -/
theorem C8_dpad_table (s : XboxController) :
    s.get_dpad
      = dpad_table (s.get_button Button.DPAD_L != 0)
          (s.get_button Button.DPAD_R != 0)
          (s.get_button Button.DPAD_U != 0)
          (s.get_button Button.DPAD_D != 0) := by
  cases hl : (s.get_button Button.DPAD_L != 0) <;>
    cases hr : (s.get_button Button.DPAD_R != 0) <;>
      cases hu : (s.get_button Button.DPAD_U != 0) <;>
        cases hd : (s.get_button Button.DPAD_D != 0) <;>
          simp [XboxController.get_dpad, dpad_table, hl, hr, hu, hd]

/-! ## State application versus dispatch -/

/-- Does the observed controller state `obs` already include the effect of
event `e` on the cached session state (axes map, buttons array, packet
counters), relative to the pre-call state `pre`?  This is the invariant
claimed for every listener callback. -/
def eventApplied (pre obs : XboxController) : Event → Bool
  | .missed_packet g => obs.missed_packets == pre.missed_packets + g
  | .state_changed _ => true
  | .axis a v => obs.axes.get a == v
  | .button n p => obs.buttons.getD n 0 == p

lemma handle_changed_state_pairs (s : XboxController) (last cur : XINPUT_STATE)
    (hlen : s.buttons.length = 17) :
    ∀ p ∈ (s.handle_changed_state last cur).2,
      p.1 = Event.state_changed cur
      ∨ (∃ a v, p.1 = Event.axis a v ∧ p.2.axes.get a = v)
      ∨ (∃ n pr, p.1 = Event.button n pr ∧ p.2.buttons.getD n 0 = pr) := by
  intro p hp
  simp only [XboxController.handle_changed_state, List.cons_append,
    List.nil_append, List.mem_cons, List.mem_append] at hp
  rcases hp with hp | hp | hp
  · left
    rw [hp]
  · right
    left
    exact dispatch_axis_loop_pairs last cur axis_scan_order s p hp
  · right
    right
    obtain ⟨m, hm⟩ := dispatch_axis_loop_fst last cur axis_scan_order s
    refine dispatch_button_loop_pairs (changed_buttons last cur) _ ?_ p hp
    intro t ht
    have hb := mem_changed_buttons_bounds ht
    have hlen' : (s.dispatch_axis_events last cur).1.buttons.length = 17 := by
      have hm' : (s.dispatch_axis_events last cur).1 = { s with axes := m } := hm
      rw [hm']
      exact hlen
    omega

/-- C4 counterexample: the claim says every event's effect on the cached
session state is applied before any produced event is dispatched, but
`update_packet_count` dispatches `on_missed_packet` *before* adding the
gap to `missed_packets`: on a poll with a 2-packet gap, the listener
observes a missed-packet counter that does not yet include the gap of the
very event being delivered. -/
theorem C4_counterexample :
    ¬ (∀ p ∈ (XboxController.init 0 DEADZONE DAMPEN true
          (some ⟨5, ⟨0, 0, 0, 0, 0, 0, 0⟩⟩)).updateTrace (some ⟨8, ⟨0, 0, 0, 0, 0, 0, 0⟩⟩),
        eventApplied
          (XboxController.init 0 DEADZONE DAMPEN true (some ⟨5, ⟨0, 0, 0, 0, 0, 0, 0⟩⟩))
          p.2 p.1 = true) := by
  intro h
  have e := update_eq_changed
    (XboxController.init 0 DEADZONE DAMPEN true (some ⟨5, ⟨0, 0, 0, 0, 0, 0, 0⟩⟩))
    ⟨5, ⟨0, 0, 0, 0, 0, 0, 0⟩⟩ ⟨8, ⟨0, 0, 0, 0, 0, 0, 0⟩⟩ rfl (by decide)
  have hg : missedGap (⟨5, ⟨0, 0, 0, 0, 0, 0, 0⟩⟩ : XINPUT_STATE)
      ⟨8, ⟨0, 0, 0, 0, 0, 0, 0⟩⟩ = 2 := by
    norm_num [missedGap]
  have hmem : (Event.missed_packet 2,
      ({ XboxController.init 0 DEADZONE DAMPEN true (some ⟨5, ⟨0, 0, 0, 0, 0, 0, 0⟩⟩) with
          received_packets :=
            (XboxController.init 0 DEADZONE DAMPEN true
              (some ⟨5, ⟨0, 0, 0, 0, 0, 0, 0⟩⟩)).received_packets + 1 } : XboxController))
      ∈ (XboxController.init 0 DEADZONE DAMPEN true
          (some ⟨5, ⟨0, 0, 0, 0, 0, 0, 0⟩⟩)).updateTrace (some ⟨8, ⟨0, 0, 0, 0, 0, 0, 0⟩⟩) := by
    rw [XboxController.updateTrace, e]
    simp only [hg]
    simp
  have hfalse := h _ hmem
  simp [eventApplied, XboxController.init] at hfalse

/-- C4 (amended): each axis or button event's state change is applied to
the cached session state immediately before that event's dispatch, so a
listener always observes the dispatched event's own axis/button effect
already applied; `received_packets` is incremented before the
`MissedPacket` dispatch, but the missed-packet counter is not: a
`MissedPacket` listener observes `missed_packets` still at its pre-call
value, the gap being added only after the dispatch returns. -/
theorem C4_state_applied_per_event (s : XboxController)
    (backend : Option XINPUT_STATE) (hlen : s.buttons.length = 17) :
    ∀ p ∈ s.updateTrace backend,
      (∀ a v, p.1 = Event.axis a v → p.2.axes.get a = v)
      ∧ (∀ n pr, p.1 = Event.button n pr → p.2.buttons.getD n 0 = pr)
      ∧ (∀ g, p.1 = Event.missed_packet g →
          p.2.missed_packets = s.missed_packets
          ∧ p.2.received_packets = s.received_packets + 1) := by
  intro p hp
  match backend with
  | none => simp [XboxController.updateTrace, XboxController.update] at hp
  | some cur =>
    match hl : s.last_state with
    | none => simp [XboxController.updateTrace, XboxController.update, hl] at hp
    | some last =>
      by_cases hpn : cur.packet_number = last.packet_number
      · rw [XboxController.updateTrace, update_pn_same s last cur hl hpn] at hp
        simp at hp
      · rw [XboxController.updateTrace, update_eq_changed s last cur hl hpn] at hp
        simp only [List.mem_append] at hp
        rcases hp with hp | hp
        · have hpair : p = (Event.missed_packet (missedGap last cur),
              ({ s with received_packets := s.received_packets + 1 } : XboxController)) := by
            split at hp
            · simpa using hp
            · simp at hp
          subst hpair
          refine ⟨?_, ?_, ?_⟩
          · intro a v h
            simp at h
          · intro n pr h
            simp at h
          · intro g h
            exact ⟨rfl, rfl⟩
        · have hh := handle_changed_state_pairs
            { s with received_packets := s.received_packets + 1,
                     missed_packets := s.missed_packets + missedGap last cur }
            last cur (by simpa using hlen) p hp
          rcases hh with h0 | ⟨a, v, h1, h2⟩ | ⟨n, pr, h1, h2⟩
          · refine ⟨?_, ?_, ?_⟩
            · intro a v h
              rw [h0] at h
              simp at h
            · intro n pr h
              rw [h0] at h
              simp at h
            · intro g h
              rw [h0] at h
              simp at h
          · refine ⟨?_, ?_, ?_⟩
            · intro a' v' h
              rw [h1] at h
              simp only [Event.axis.injEq] at h
              obtain ⟨rfl, rfl⟩ := h
              exact h2
            · intro n pr h
              rw [h1] at h
              simp at h
            · intro g h
              rw [h1] at h
              simp at h
          · refine ⟨?_, ?_, ?_⟩
            · intro a v h
              rw [h1] at h
              simp at h
            · intro n' pr' h
              rw [h1] at h
              simp only [Event.button.injEq] at h
              obtain ⟨rfl, rfl⟩ := h
              exact h2
            · intro g h
              rw [h1] at h
              simp at h

/-- Witness for `C4_state_applied_per_event`, instantiated at the
`MissedPacket` trace pair of a poll with a 2-packet gap. -/
theorem C4_witness :
    (∀ a v, (Event.missed_packet 2 : Event) = Event.axis a v →
      ({ XboxController.init 0 DEADZONE DAMPEN true (some ⟨5, ⟨0, 0, 0, 0, 0, 0, 0⟩⟩) with
        received_packets :=
          (XboxController.init 0 DEADZONE DAMPEN true (some ⟨5, ⟨0, 0, 0, 0, 0, 0, 0⟩⟩)).received_packets + 1 } : XboxController).axes.get a = v)
    ∧ (∀ n pr, (Event.missed_packet 2 : Event) = Event.button n pr →
      ({ XboxController.init 0 DEADZONE DAMPEN true (some ⟨5, ⟨0, 0, 0, 0, 0, 0, 0⟩⟩) with
        received_packets :=
          (XboxController.init 0 DEADZONE DAMPEN true (some ⟨5, ⟨0, 0, 0, 0, 0, 0, 0⟩⟩)).received_packets + 1 } : XboxController).buttons.getD n 0 = pr)
    ∧ (∀ g, (Event.missed_packet 2 : Event) = Event.missed_packet g →
      ({ XboxController.init 0 DEADZONE DAMPEN true (some ⟨5, ⟨0, 0, 0, 0, 0, 0, 0⟩⟩) with
        received_packets :=
          (XboxController.init 0 DEADZONE DAMPEN true (some ⟨5, ⟨0, 0, 0, 0, 0, 0, 0⟩⟩)).received_packets + 1 } : XboxController).missed_packets = (XboxController.init 0 DEADZONE DAMPEN true (some ⟨5, ⟨0, 0, 0, 0, 0, 0, 0⟩⟩)).missed_packets
      ∧ ({ XboxController.init 0 DEADZONE DAMPEN true (some ⟨5, ⟨0, 0, 0, 0, 0, 0, 0⟩⟩) with
        received_packets :=
          (XboxController.init 0 DEADZONE DAMPEN true (some ⟨5, ⟨0, 0, 0, 0, 0, 0, 0⟩⟩)).received_packets + 1 } : XboxController).received_packets = (XboxController.init 0 DEADZONE DAMPEN true (some ⟨5, ⟨0, 0, 0, 0, 0, 0, 0⟩⟩)).received_packets + 1) :=
  C4_state_applied_per_event (XboxController.init 0 DEADZONE DAMPEN true (some ⟨5, ⟨0, 0, 0, 0, 0, 0, 0⟩⟩)) (some ⟨8, ⟨1, 255, 0, 0, 0, 0, 0⟩⟩) rfl
    (Event.missed_packet 2, ({ XboxController.init 0 DEADZONE DAMPEN true (some ⟨5, ⟨0, 0, 0, 0, 0, 0, 0⟩⟩) with
        received_packets :=
          (XboxController.init 0 DEADZONE DAMPEN true (some ⟨5, ⟨0, 0, 0, 0, 0, 0, 0⟩⟩)).received_packets + 1 } : XboxController))
    (by
      rw [XboxController.updateTrace,
        update_eq_changed (XboxController.init 0 DEADZONE DAMPEN true (some ⟨5, ⟨0, 0, 0, 0, 0, 0, 0⟩⟩)) ⟨5, ⟨0, 0, 0, 0, 0, 0, 0⟩⟩ ⟨8, ⟨1, 255, 0, 0, 0, 0, 0⟩⟩ rfl (by decide)]
      have hg : missedGap (⟨5, ⟨0, 0, 0, 0, 0, 0, 0⟩⟩ : XINPUT_STATE) ⟨8, ⟨1, 255, 0, 0, 0, 0, 0⟩⟩ = 2 := by
        norm_num [missedGap]
      simp only [hg]
      simp)

/-! ## Construction-time state -/

lemma getD_replicate_zero (k m : Nat) :
    (List.replicate k (0 : Nat)).getD m 0 = 0 := by
  rw [List.getD_eq_getElem?_getD, List.getElem?_replicate]
  split <;> rfl

lemma update_changed_axes_get (s : XboxController) (last cur : XINPUT_STATE)
    (a : Axis) (hl : s.last_state = some last)
    (hpn : cur.packet_number ≠ last.packet_number)
    (hnf : ¬ axisFires s.normalize_axes s.deadzone s.dampen last cur a) :
    (s.update (some cur)).1.axes.get a = s.axes.get a := by
  rw [update_eq_changed s last cur hl hpn]
  simp only [XboxController.handle_changed_state,
    XboxController.dispatch_button_events]
  obtain ⟨bl, hbl⟩ := dispatch_button_loop_fst (changed_buttons last cur)
    (({ s with received_packets := s.received_packets + 1,
               missed_packets := s.missed_packets + missedGap last cur } :
        XboxController).dispatch_axis_events last cur).1
  rw [hbl]
  exact dispatch_axis_loop_get axis_scan_order _ hnf

lemma update_changed_buttons_getD (s : XboxController) (last cur : XINPUT_STATE)
    (n : Nat) (hl : s.last_state = some last)
    (hpn : cur.packet_number ≠ last.packet_number)
    (hne : ∀ t ∈ changed_buttons last cur, t.2.1 ≠ n) :
    (s.update (some cur)).1.buttons.getD n 0 = s.buttons.getD n 0 := by
  rw [update_eq_changed s last cur hl hpn]
  simp only [XboxController.handle_changed_state,
    XboxController.dispatch_button_events]
  rw [dispatch_button_loop_getD n (changed_buttons last cur) _ hne]
  obtain ⟨m, hm⟩ := dispatch_axis_loop_fst last cur axis_scan_order
    ({ s with received_packets := s.received_packets + 1,
              missed_packets := s.missed_packets + missedGap last cur } :
      XboxController)
  have hm' : (({ s with
                  received_packets := s.received_packets + 1,
                  missed_packets := s.missed_packets + missedGap last cur } :
        XboxController).dispatch_axis_events last cur).1
      = { s with
            received_packets := s.received_packets + 1,
            missed_packets := s.missed_packets + missedGap last cur,
            axes := m } := hm
  rw [hm']

/-- C10: immediately after constructing a session on a connected device,
`get_axis` returns 0 for every axis and `get_button` returns 0 for every
ordinal, regardless of the stick, trigger and button values in the
initial snapshot; the first `update` diffs against that construction-time
snapshot, so an input already held at construction (raw axis sample
unchanged; button bit unchanged) produces no event and its cached value
stays 0 until its raw value changes. -/
theorem C10_construction_state (dn : Nat) (dz dp : ℚ) (nrm : Bool)
    (snap0 cur : XINPUT_STATE) (a : Axis) (n : Nat)
    (hb0 : snap0.gamepad.buttons < 2 ^ 16) (hbc : cur.gamepad.buttons < 2 ^ 16)
    (_hn1 : 1 ≤ n) (_hn16 : n ≤ 16)
    (ha : cur.gamepad.axisVal a = snap0.gamepad.axisVal a)
    (hbit : cur.gamepad.buttons / 2 ^ (16 - n) % 2
      = snap0.gamepad.buttons / 2 ^ (16 - n) % 2) :
    (∀ b, (XboxController.init dn dz dp nrm (some snap0)).get_axis b = 0)
    ∧ (∀ m, (XboxController.init dn dz dp nrm (some snap0)).get_button m = 0)
    ∧ (∀ v, Event.axis a v ∉
        (XboxController.init dn dz dp nrm (some snap0)).updateEvents (some cur))
    ∧ ((XboxController.init dn dz dp nrm (some snap0)).update (some cur)).1.get_axis a = 0
    ∧ (∀ pr, Event.button n pr ∉
        (XboxController.init dn dz dp nrm (some snap0)).updateEvents (some cur))
    ∧ ((XboxController.init dn dz dp nrm (some snap0)).update (some cur)).1.get_button n = 0 := by
  have hnf : ¬ axisFires nrm dz dp snap0 cur a := by
    intro hf
    exact hf.2 (by rw [ha])
  have hinit_axis : ∀ b,
      (XboxController.init dn dz dp nrm (some snap0)).get_axis b = 0 := by
    intro b
    cases b <;> rfl
  have hinit_btn : ∀ m,
      (XboxController.init dn dz dp nrm (some snap0)).get_button m = 0 :=
    fun m => getD_replicate_zero 17 m
  by_cases hpn : cur.packet_number = snap0.packet_number
  · have hu := update_pn_same (XboxController.init dn dz dp nrm (some snap0))
      snap0 cur rfl hpn
    refine ⟨hinit_axis, hinit_btn, ?_, ?_, ?_, ?_⟩
    · intro v hv
      rw [XboxController.updateEvents, XboxController.updateTrace, hu] at hv
      simp at hv
    · rw [hu]
      exact hinit_axis a
    · intro pr hv
      rw [XboxController.updateEvents, XboxController.updateTrace, hu] at hv
      simp at hv
    · rw [hu]
      exact hinit_btn n
  · have hne : ∀ t ∈ changed_buttons snap0 cur, t.2.1 ≠ n :=
      mem_changed_buttons_ne hb0 hbc hbit
    have hev : (XboxController.init dn dz dp nrm (some snap0)).updateEvents (some cur)
        = (if missedGap snap0 cur ≠ 0
            then [Event.missed_packet (missedGap snap0 cur)] else [])
          ++ Event.state_changed cur ::
            ((axis_scan_order.map (axisEvent nrm dz dp snap0 cur)).flatten
              ++ (changed_buttons snap0 cur).map (fun t => Event.button t.2.1 t.2.2)) :=
      updateEvents_changed (XboxController.init dn dz dp nrm (some snap0))
        snap0 cur rfl hpn
    refine ⟨hinit_axis, hinit_btn, ?_, ?_, ?_, ?_⟩
    · intro v hv
      rw [hev] at hv
      simp only [List.mem_append, List.mem_cons] at hv
      rcases hv with hv | hv | hv | hv
      · split at hv <;> simp at hv
      · simp at hv
      · obtain ⟨b, hbmem, hb⟩ := mem_flatten_axisEvent' hv
        have hshape := mem_axisEvent hb
        simp only [Event.axis.injEq] at hshape
        obtain ⟨rfl, -⟩ := hshape
        rw [axisEvent, if_neg hnf] at hb
        simp at hb
      · rw [List.mem_map] at hv
        obtain ⟨t, ht, hbt⟩ := hv
        simp at hbt
    · exact (update_changed_axes_get _ snap0 cur a rfl hpn hnf).trans
        (hinit_axis a)
    · intro pr hv
      rw [hev] at hv
      simp only [List.mem_append, List.mem_cons] at hv
      rcases hv with hv | hv | hv | hv
      · split at hv <;> simp at hv
      · simp at hv
      · obtain ⟨b, hbmem, hb⟩ := mem_flatten_axisEvent' hv
        have hshape := mem_axisEvent hb
        simp at hshape
      · rw [List.mem_map] at hv
        obtain ⟨t, ht, hbt⟩ := hv
        simp only [Event.button.injEq] at hbt
        exact hne t ht hbt.1
    · exact (update_changed_buttons_getD _ snap0 cur n rfl hpn hne).trans
        (hinit_btn n)

/-- Witness for `C10_construction_state`: a session constructed while the
left stick X is held at raw 123, the left trigger at 7 and button
ordinal 16 pressed (mask 3); the first poll keeps those raw values. -/
theorem C10_witness :
    (∀ b, (XboxController.init 0 DEADZONE DAMPEN true (some ⟨5, ⟨3, 7, 0, 123, 0, 0, 0⟩⟩)).get_axis b = 0)
    ∧ (∀ m, (XboxController.init 0 DEADZONE DAMPEN true (some ⟨5, ⟨3, 7, 0, 123, 0, 0, 0⟩⟩)).get_button m = 0)
    ∧ (∀ v, Event.axis Axis.LX v ∉ (XboxController.init 0 DEADZONE DAMPEN true (some ⟨5, ⟨3, 7, 0, 123, 0, 0, 0⟩⟩)).updateEvents (some (⟨9, ⟨3, 7, 0, 123, 5, 0, 0⟩⟩ : XINPUT_STATE)))
    ∧ ((XboxController.init 0 DEADZONE DAMPEN true (some ⟨5, ⟨3, 7, 0, 123, 0, 0, 0⟩⟩)).update (some (⟨9, ⟨3, 7, 0, 123, 5, 0, 0⟩⟩ : XINPUT_STATE))).1.get_axis Axis.LX = 0
    ∧ (∀ pr, Event.button 16 pr ∉ (XboxController.init 0 DEADZONE DAMPEN true (some ⟨5, ⟨3, 7, 0, 123, 0, 0, 0⟩⟩)).updateEvents (some (⟨9, ⟨3, 7, 0, 123, 5, 0, 0⟩⟩ : XINPUT_STATE)))
    ∧ ((XboxController.init 0 DEADZONE DAMPEN true (some ⟨5, ⟨3, 7, 0, 123, 0, 0, 0⟩⟩)).update (some (⟨9, ⟨3, 7, 0, 123, 5, 0, 0⟩⟩ : XINPUT_STATE))).1.get_button 16 = 0 :=
  C10_construction_state 0 DEADZONE DAMPEN true ⟨5, ⟨3, 7, 0, 123, 0, 0, 0⟩⟩
    (⟨9, ⟨3, 7, 0, 123, 5, 0, 0⟩⟩ : XINPUT_STATE) Axis.LX 16 (by norm_num) (by norm_num) (by norm_num) (by norm_num)
    rfl rfl
